import Mathlib

/-!
# telduino: the circuit engine of `core/Circuit/circuit.cpp`

A shallow embedding of `_shouldReturn`, `Cclear`, `Cmeasure`, `Cprogram`, `CsetOn`,
`Cload` and `Csave`, with the integer arithmetic of the power-factor and wait-time
computations spelled out, of the EEPROM loops, `readSheevaPort` and `get_val` of
`telduino.cpp`, and of `readData` of `libraries/ADE7753/ADE7753.c`.

Conventions of the embedding:

* the global `_retCode` and the log of issued device operations live in `World`;
* the device primitives (`CSselectDevice`, `ADEgetRegister`, ...) are declared in
  headers outside the sources at hand, so what each call answers is read from an
  arbitrary table `World.hw`, indexed by the number of calls made so far;
* machine integers are `Int`/`Nat` with the reductions modulo `2^w` written out.
-/

namespace Telduino

/-! ## Result codes -/

/-- Result codes stored in the global `_retCode` (those named by the sources). -/
inductive RetCode
  | SUCCESS
  | COMMERR
  | TIMEOUT
  | ARGVALUEERR
  | CANCELED
  deriving DecidableEq, Repr

/-- Modelled from the spec: the macro behind `ifnsuccess(x)` lives in
`ReturnCode/returncode.h`, which is not among the sources; it holds when the
result is anything but Success. -/
def nsuccess (rc : RetCode) : Bool :=
  decide (rc ≠ RetCode.SUCCESS)

/-! ## Fixed-width integer helpers -/

/-- Conversion of an integer value to `uint64_t`. -/
def toU64 (x : Int) : Nat :=
  (x % 2 ^ 64).toNat

/-- Conversion of a non-negative value to `uint16_t`. -/
def toU16 (x : Nat) : Nat :=
  x % 2 ^ 16

/-- Conversion of an integer value to `uint16_t`. -/
def intToU16 (x : Int) : Nat :=
  (x % 2 ^ 16).toNat

/-- Wrap-around of `int32_t` arithmetic. -/
def wrapI32 (x : Int) : Int :=
  (x + 2 ^ 31) % 2 ^ 32 - 2 ^ 31

/-- The values an energy field of at most 32 bits can hold, signed or unsigned. -/
def fits32 (x : Int) : Prop :=
  -(2 ^ 31) ≤ x ∧ x < 2 ^ 32

instance (x : Int) : Decidable (fits32 x) := by
  unfold fits32; infer_instance

/-! ## Power factor (`Cmeasure`, lines 123-128) -/

/-- The expression `((((uint64_t)WEnergy<<16)-WEnergy)-WEnergy)` in `uint64_t`
arithmetic. -/
def pfNumerator (WEnergy : Int) : Nat :=
  let w := toU64 WEnergy
  let shl := (w * 2 ^ 16) % 2 ^ 64
  let s1 := (shl + 2 ^ 64 - w) % 2 ^ 64
  (s1 + 2 ^ 64 - w) % 2 ^ 64

/-- Outcome of the power-factor step: the value stored in `PF`, and the divisors
with which the `/` of line 125 was evaluated. -/
structure PFStep where
  PF : Nat
  divisors : List Nat
  deriving DecidableEq, Repr

/-- The power-factor step:
`if (c->VAEnergy != 0) c->PF = (uint16_t)(.../c->VAEnergy); else c->PF = 65535;` -/
def pfStep (WEnergy VAEnergy : Int) : PFStep :=
  if VAEnergy ≠ 0 then
    { PF := toU16 (pfNumerator WEnergy / toU64 VAEnergy), divisors := [toU64 VAEnergy] }
  else
    { PF := 65535, divisors := [] }

/-! ## Wait bound (`Cmeasure`, lines 81-82) -/

/-- The value of `(regData*22/100.0)*(c->halfCyclesSample/100)` truncated toward
zero, as the conversion to an integer type does. The `double` product is taken at
its exact value `regData*22*(halfCyclesSample/100)/100`; `halfCyclesSample/100` is
the integer division of the source. -/
def waitProduct (regData halfCyclesSample : Int) : Int :=
  Int.tdiv (wrapI32 (regData * 22) * Int.tdiv halfCyclesSample 100) 100

/-- First value of `waitTime`: the product converted to `uint16_t`. -/
def waitBase (regData halfCyclesSample : Int) : Nat :=
  intToU16 (waitProduct regData halfCyclesSample)

/-- The bound passed to `ADEwaitForInterrupt`:
`waitTime = waitTime + waitTime/2` in `uint16_t`. -/
def waitTime (regData halfCyclesSample : Int) : Nat :=
  toU16 (waitBase regData halfCyclesSample + waitBase regData halfCyclesSample / 2)

/-- The spec's wording of the time in microseconds that `halfCyclesSample`
half-cycles take on the measured line: `halfCyclesSample / 2 * period`, the period
being 2.2 microseconds per count of the PERIOD register; multiplied by ten to stay
in integers. -/
def tenTimesSampleMicros (regData halfCyclesSample : Int) : Int :=
  halfCyclesSample * regData * 11

/-! ## Device operations and the world -/

/-- Registers of the metering chip that the circuit engine names. -/
inductive Reg
  | STATUS | RSTSTATUS | PERIOD
  | LVAENERGY | LAENERGY | IRMS | VRMS | RVAENERGY | RAENERGY | RSTIPEAK | RSTVPEAK
  | SAGCYC | PHCAL | IRMSOS | VRMSOS | LINECYC | GAIN
  deriving DecidableEq, Repr

/-- Mode bits the circuit engine names. -/
inductive ModeBit
  | DISSAG | CYCMODE
  deriving DecidableEq, Repr

/-- Interrupt masks the circuit engine names. -/
inductive Irq
  | CYCEND | ZX0
  deriving DecidableEq, Repr

/-- One call of a device primitive, with the arguments passed. -/
inductive Op
  | CSselectDevice (id : Int)
  | ADEgetRegister (reg : Reg)
  | ADEsetRegister (reg : Reg) (value : Int)
  | ADEsetModeBit (bit : ModeBit) (enable : Bool)
  | ADEsetCHXOS (channel : Nat) (integrator : Int) (offset : Int)
  | ADEwaitForInterrupt (mask : Irq) (ms : Nat)
  | ADEreset
  deriving DecidableEq, Repr

/-- What a primitive call answers: the code it writes to `_retCode` (`none` when
it returns without writing it) and the value it delivers through its
out-parameter. -/
structure Reply where
  rc : Option RetCode
  data : Int
  deriving DecidableEq, Repr

/-- A logged call: the operation and the value of `_retCode` when it returned. -/
structure Event where
  op : Op
  rc : RetCode
  deriving DecidableEq, Repr

/-- The global `_retCode`, the log of device operations issued so far, and the
answers of the hardware, one per call in call order. -/
structure World where
  retCode : RetCode
  trace : List Event
  hw : Nat → Reply

/-- A call of a device primitive: the next answer is taken, `_retCode` updated,
the call logged; the delivered value is returned along. -/
def World.call (w : World) (op : Op) : Int × World :=
  let r := w.hw w.trace.length
  let rc := r.rc.getD w.retCode
  (r.data, { w with retCode := rc, trace := w.trace ++ [{ op := op, rc := rc }] })

/-- Constants of headers that are not among the sources, taken as parameters:
the communication flag `COMM` of `Circuit.status` and the pseudo channel
`DEVDISABLE` that deselects the bus. -/
structure Consts where
  COMM : Nat
  DEVDISABLE : Int
  deriving DecidableEq, Repr

/-- Modelled from the spec: `RCreset()` comes from `ReturnCode/returncode.h`,
which is not among the sources; it puts `_retCode` back to Success. -/
def RCreset (w : World) : World :=
  { w with retCode := RetCode.SUCCESS }

/-- The bus primitive `CSselectDevice(id)` of `Select/select.h`. -/
def CSselectDevice (id : Int) (w : World) : World :=
  (w.call (Op.CSselectDevice id)).2

/-- The register read `ADEgetRegister(reg, &regData)`; the value read comes first. -/
def ADEgetRegister (reg : Reg) (w : World) : Int × World :=
  w.call (Op.ADEgetRegister reg)

/-- The register write `ADEsetRegister(reg, &regData)`. -/
def ADEsetRegister (reg : Reg) (value : Int) (w : World) : World :=
  (w.call (Op.ADEsetRegister reg value)).2

/-- The mode-bit write `ADEsetModeBit(bit, enable)`. -/
def ADEsetModeBit (bit : ModeBit) (enable : Bool) (w : World) : World :=
  (w.call (Op.ADEsetModeBit bit enable)).2

/-- The channel offset write `ADEsetCHXOS(channel, &integrator, &offset)`. -/
def ADEsetCHXOS (channel : Nat) (integrator offset : Int) (w : World) : World :=
  (w.call (Op.ADEsetCHXOS channel integrator offset)).2

/-- The bounded wait `ADEwaitForInterrupt(mask, ms)`. -/
def ADEwaitForInterrupt (mask : Irq) (ms : Nat) (w : World) : World :=
  (w.call (Op.ADEwaitForInterrupt mask ms)).2

/-- The device reset `ADEreset()`. -/
def ADEreset (w : World) : World :=
  (w.call Op.ADEreset).2

/-! ## The circuit record -/

/-- The fields of `Circuit` that `CsetDefaults` lists. The `float` slopes are kept
as the rational value they hold; the widths of the integer fields are declared in
`circuit.h`, not among the sources, so the fields hold unbounded integers. -/
structure Circuit where
  circuitID : Int
  halfCyclesSample : Int
  phcal : Int
  chIint : Int
  chIos : Int
  chIgainExp : Nat
  IRMSoffset : Int
  IRMSslope : ℚ
  chVos : Int
  chVgainExp : Nat
  chVscale : Nat
  VRMSoffset : Int
  VRMSslope : ℚ
  VAEslope : ℚ
  VAoffset : Int
  Wslope : ℚ
  Woffset : Int
  sagDurationCycles : Int
  minVSag : Int
  VAPowerMax : Int
  ipeakMax : Int
  vpeakMax : Int
  IRMS : Int
  VRMS : Int
  periodus : Int
  VA : Int
  W : Int
  PF : Nat
  VAEnergy : Int
  WEnergy : Int
  ipeak : Int
  vpeak : Int
  status : Nat
  deriving DecidableEq

/-- The floating-point conversions of `Cmeasure`, taken as parameters: each gives
the value that ends up in the integer field. -/
structure FloatOps where
  /-- The value of `regData*slope/(halfCyclesSample/2.0*periodus/1000000)`. -/
  power : Int → ℚ → Int → Int → Int
  /-- The value of `regData*slope`. -/
  scale : Int → ℚ → Int
  /-- The value of `regData*slope/1000`. -/
  energy : Int → ℚ → Int

/-- The conversions evaluated in exact rational arithmetic and truncated toward
zero. -/
def exactFloat : FloatOps where
  power := fun regData slope halfCyclesSample periodus =>
    let q : ℚ := regData * slope / ((halfCyclesSample : ℚ) / 2 * periodus / 1000000)
    if 0 ≤ q then ⌊q⌋ else ⌈q⌉
  scale := fun regData slope =>
    let q : ℚ := regData * slope
    if 0 ≤ q then ⌊q⌋ else ⌈q⌉
  energy := fun regData slope =>
    let q : ℚ := regData * slope / 1000
    if 0 ≤ q then ⌊q⌋ else ⌈q⌉

/-- The three statements that record a status read:
`c->status &= ~COMM; c->status &= 0xFFFF0000; c->status |= (0x0000FFFF&regData);` -/
def recordStatus (k : Consts) (status : Nat) (regData : Int) : Nat :=
  let s := status ^^^ (status &&& k.COMM)
  let s := s &&& 0xFFFF0000
  s ||| intToU16 regData

/-! ## `_shouldReturn` and `ERRCHECKRETURN` -/

/-- The function `_shouldReturn` of lines 18-33. -/
def _shouldReturn (k : Consts) (c : Circuit) (w : World) : Bool × Circuit × World :=
  if nsuccess w.retCode then
    if w.retCode = RetCode.COMMERR then
      let c := { c with status := c.status ||| k.COMM }
      let w := CSselectDevice k.DEVDISABLE w
      (true, c, w)
    else if w.retCode = RetCode.TIMEOUT then
      (false, c, w)
    else
      let w := CSselectDevice k.DEVDISABLE w
      (true, c, w)
  else
    (false, c, w)

/-- The statement `ERRCHECKRETURN(c)`, that is `if (_shouldReturn(c)) return;`,
followed by the rest of the function body `rest`. -/
def ERRCHECKRETURN (k : Consts) (c : Circuit) (w : World)
    (rest : Circuit → World → Circuit × World) : Circuit × World :=
  match _shouldReturn k c w with
  | (true, c, w) => (c, w)
  | (false, c, w) => rest c w

/-! ## `Cmeasure` (lines 62-136) -/

/-- The end of `Cmeasure`, lines 131-135:
`CSselectDevice(DEVDISABLE); if (timeout) _retCode = TIMEOUT;` -/
def CmeasureEnd (k : Consts) (timeout : Bool) (c : Circuit) (w : World) :
    Circuit × World :=
  let w := CSselectDevice k.DEVDISABLE w
  let w := if timeout then { w with retCode := RetCode.TIMEOUT } else w
  (c, w)

/-- The block guarded by `if (!timeout)`, lines 92-128, followed by the end of the
function. -/
def CmeasureReads (k : Consts) (fl : FloatOps) (timeout : Bool) (c : Circuit)
    (w : World) : Circuit × World :=
  let (regData, w) := ADEgetRegister Reg.LVAENERGY w
  ERRCHECKRETURN k c w fun c w =>
  let c := { c with VA := fl.power regData c.VAEslope c.halfCyclesSample c.periodus }
  let (regData, w) := ADEgetRegister Reg.LAENERGY w
  ERRCHECKRETURN k c w fun c w =>
  let c := { c with W := fl.power regData c.Wslope c.halfCyclesSample c.periodus }
  let (regData, w) := ADEgetRegister Reg.IRMS w
  ERRCHECKRETURN k c w fun c w =>
  let c := { c with IRMS := fl.scale regData c.IRMSslope }
  let (regData, w) := ADEgetRegister Reg.VRMS w
  ERRCHECKRETURN k c w fun c w =>
  let c := { c with VRMS := fl.scale regData c.VRMSslope }
  let (regData, w) := ADEgetRegister Reg.RVAENERGY w
  ERRCHECKRETURN k c w fun c w =>
  let c := { c with VAEnergy := fl.energy regData c.VAEslope }
  let (regData, w) := ADEgetRegister Reg.RAENERGY w
  ERRCHECKRETURN k c w fun c w =>
  let c := { c with WEnergy := fl.energy regData c.Wslope }
  let (regData, w) := ADEgetRegister Reg.RSTIPEAK w
  ERRCHECKRETURN k c w fun c w =>
  let c := { c with ipeak := fl.scale regData c.IRMSslope }
  let (regData, w) := ADEgetRegister Reg.RSTVPEAK w
  ERRCHECKRETURN k c w fun c w =>
  let c := { c with vpeak := fl.scale regData c.VRMSslope }
  let c := { c with PF := (pfStep c.WEnergy c.VAEnergy).PF }
  CmeasureEnd k timeout c w

/-- The function `Cmeasure`. The debug print of line 79 is not a device operation
and is left out. -/
def Cmeasure (k : Consts) (fl : FloatOps) (c : Circuit) (w : World) : Circuit × World :=
  let timeout := false
  let w := RCreset w
  let w := CSselectDevice c.circuitID w
  ERRCHECKRETURN k c w fun c w =>
  let (regData, w) := ADEgetRegister Reg.STATUS w
  ERRCHECKRETURN k c w fun c w =>
  let c := { c with status := recordStatus k c.status regData }
  let (regData, w) := ADEgetRegister Reg.PERIOD w
  ERRCHECKRETURN k c w fun c w =>
  let c := { c with periodus := Int.tdiv (wrapI32 (regData * 22)) 10 }
  let w := ADEwaitForInterrupt Irq.CYCEND (waitTime regData c.halfCyclesSample) w
  ERRCHECKRETURN k c w fun c w =>
  let timeout := if w.retCode = RetCode.TIMEOUT then true else timeout
  if !timeout then
    CmeasureReads k fl timeout c w
  else
    CmeasureEnd k timeout c w

/-! ## `Cprogram` (lines 138-174) -/

/-- The value written to GAIN, line 170:
`(c->chVgainExp<<5) | (c->chVscale<<3) | c->chIgainExp`. -/
def gainValue (c : Circuit) : Nat :=
  (c.chVgainExp <<< 5) ||| (c.chVscale <<< 3) ||| c.chIgainExp

/-- Lines 153-174 of `Cprogram`, from the phase calibration on. The check of
line 153 stands before the PHCAL write, as in the source. -/
def CprogramRest (k : Consts) (c : Circuit) (w : World) : Circuit × World :=
  let regData := c.phcal
  ERRCHECKRETURN k c w fun c w =>
  let w := ADEsetRegister Reg.PHCAL regData w
  let w := ADEsetCHXOS 1 c.chIint c.chIos w
  ERRCHECKRETURN k c w fun c w =>
  let regData := c.IRMSoffset
  let w := ADEsetRegister Reg.IRMSOS regData w
  ERRCHECKRETURN k c w fun c w =>
  let w := ADEsetCHXOS 2 c.chIint c.chVos w
  ERRCHECKRETURN k c w fun c w =>
  let regData := c.VRMSoffset
  let w := ADEsetRegister Reg.VRMSOS regData w
  ERRCHECKRETURN k c w fun c w =>
  let last := fun (c : Circuit) (w : World) =>
    let regData : Int := gainValue c
    let w := ADEsetRegister Reg.GAIN regData w
    ERRCHECKRETURN k c w fun c w =>
    (c, CSselectDevice k.DEVDISABLE w)
  if c.halfCyclesSample > 0 then
    let regData := c.halfCyclesSample
    let w := ADEsetRegister Reg.LINECYC regData w
    ERRCHECKRETURN k c w fun c w =>
    let w := ADEsetModeBit ModeBit.CYCMODE true w
    ERRCHECKRETURN k c w last
  else
    let w := ADEsetModeBit ModeBit.CYCMODE false w
    ERRCHECKRETURN k c w last

/-- The function `Cprogram`. -/
def Cprogram (k : Consts) (c : Circuit) (w : World) : Circuit × World :=
  let w := { w with retCode := RetCode.SUCCESS }
  let w := CSselectDevice c.circuitID w
  ERRCHECKRETURN k c w fun c w =>
  let w := ADEreset w
  if c.sagDurationCycles > 0 then
    let regData := c.sagDurationCycles + 1
    let w := ADEsetModeBit ModeBit.DISSAG false w
    ERRCHECKRETURN k c w fun c w =>
    let w := ADEsetRegister Reg.SAGCYC regData w
    ERRCHECKRETURN k c w (CprogramRest k)
  else
    let w := ADEsetModeBit ModeBit.DISSAG true w
    ERRCHECKRETURN k c w (CprogramRest k)

/-! ## Sample inputs -/

/-- The circuit that `CsetDefaults(c, 0)` produces (slopes .00224, .1068, 37.5 and
31.05; `status` taken as 0). -/
def defaultCircuit : Circuit where
  circuitID := 0
  halfCyclesSample := 120
  phcal := 11
  chIint := 0
  chIos := 0
  chIgainExp := 4
  IRMSoffset := -2048
  IRMSslope := 224 / 100000
  chVos := 1
  chVgainExp := 1
  chVscale := 0
  VRMSoffset := -2048
  VRMSslope := 1068 / 10000
  VAEslope := 375 / 10
  VAoffset := 0
  Wslope := 3105 / 100
  Woffset := 0
  sagDurationCycles := 10
  minVSag := 100
  VAPowerMax := 2000
  ipeakMax := 16000
  vpeakMax := 400
  IRMS := 0
  VRMS := 0
  periodus := 1024
  VA := 0
  W := 0
  PF := 1234
  VAEnergy := 0
  WEnergy := 0
  ipeak := 123
  vpeak := 123
  status := 0

/-- Sample values of the header constants: `COMM` one bit above the 16 status
bits, `DEVDISABLE` a channel number outside 0..20. -/
def sampleConsts : Consts where
  COMM := 0x10000
  DEVDISABLE := 21

/-- A line at 60 Hz on which the cycle-end interrupt never arrives: every call
succeeds, the PERIOD register reads 7575, the wait (fourth call) times out. -/
def hwTimeout : Nat → Reply := fun n =>
  if n = 2 then { rc := some RetCode.SUCCESS, data := 7575 }
  else if n = 3 then { rc := some RetCode.TIMEOUT, data := 0 }
  else { rc := some RetCode.SUCCESS, data := 0 }

/-- The world before an operation starts: nothing logged yet. -/
def World.start (hw : Nat → Reply) : World where
  retCode := RetCode.SUCCESS
  trace := []
  hw := hw

/-- The value of `_retCode` after the call number `i` of an operation that starts
by resetting `_retCode` and writes it nowhere else before that call returns (as
`Cmeasure` and `Cprogram` do up to their last statements). -/
def World.codeAfter (w : World) : Nat → RetCode
  | 0 => (w.hw w.trace.length).rc.getD RetCode.SUCCESS
  | i + 1 => (w.hw (w.trace.length + (i + 1))).rc.getD (w.codeAfter i)

/-- A line at 60 Hz with no load drawing active energy: every call succeeds, the
PERIOD register reads 7575, RVAENERGY (ninth call) reads 1000 and RAENERGY (tenth
call) reads 0. -/
def hwIdleLoad : Nat → Reply := fun n =>
  if n = 2 then { rc := some RetCode.SUCCESS, data := 7575 }
  else if n = 8 then { rc := some RetCode.SUCCESS, data := 1000 }
  else { rc := some RetCode.SUCCESS, data := 0 }

/-- The function `Cclear`. -/
def Cclear (k : Consts) (c : Circuit) (w : World) : Circuit × World :=
  let w := RCreset w
  let w := CSselectDevice c.circuitID w
  ERRCHECKRETURN k c w fun c w =>
  let (regData, w) := ADEgetRegister Reg.RSTSTATUS w
  ERRCHECKRETURN k c w fun c w =>
  let c := { c with status := recordStatus k c.status regData }
  let w := CSselectDevice k.DEVDISABLE w
  ERRCHECKRETURN k c w fun c w =>
  (c, w)

/-! ## Reading the log of device operations -/

/-- The operations of a log, without the result codes. -/
def opsOf (t : List Event) : List Op :=
  t.map Event.op

/-- A bus on which everything succeeds except the deselect at the end of `Cclear`
(third call), which reports a communication error. -/
def hwDeselectFails : Nat → Reply := fun n =>
  if n = 2 then { rc := some RetCode.COMMERR, data := 0 }
  else { rc := some RetCode.SUCCESS, data := 0 }

/-- A bus on which the write of PHCAL (fifth call of `Cprogram` when sag detection
is configured) reports a communication error and no other call writes `_retCode`. -/
def hwPhcalFails : Nat → Reply := fun n =>
  if n = 4 then { rc := some RetCode.COMMERR, data := 0 }
  else { rc := none, data := 0 }

/-- A line at 60 Hz on which the cycle-end interrupt arrives, LVAENERGY (fifth
call) reads 1000 and the read of LAENERGY (sixth call) reports a communication
error. -/
def hwSecondReadFails : Nat → Reply := fun n =>
  if n = 2 then { rc := some RetCode.SUCCESS, data := 7575 }
  else if n = 4 then { rc := some RetCode.SUCCESS, data := 1000 }
  else if n = 5 then { rc := some RetCode.COMMERR, data := 0 }
  else { rc := some RetCode.SUCCESS, data := 0 }

/-- The order of device operations that the specification gives for `program`:
select, reset, sag setup, phase calibration, current-channel offset and RMS offset,
voltage-channel offset and RMS offset, cycle setup, gain, deselect. -/
def programSequence (k : Consts) (c : Circuit) : List Op :=
  [Op.CSselectDevice c.circuitID, Op.ADEreset] ++
  (if c.sagDurationCycles > 0 then
    [Op.ADEsetModeBit ModeBit.DISSAG false,
     Op.ADEsetRegister Reg.SAGCYC (c.sagDurationCycles + 1)]
  else
    [Op.ADEsetModeBit ModeBit.DISSAG true]) ++
  [Op.ADEsetRegister Reg.PHCAL c.phcal,
   Op.ADEsetCHXOS 1 c.chIint c.chIos,
   Op.ADEsetRegister Reg.IRMSOS c.IRMSoffset,
   Op.ADEsetCHXOS 2 c.chIint c.chVos,
   Op.ADEsetRegister Reg.VRMSOS c.VRMSoffset] ++
  (if c.halfCyclesSample > 0 then
    [Op.ADEsetRegister Reg.LINECYC c.halfCyclesSample,
     Op.ADEsetModeBit ModeBit.CYCMODE true]
  else
    [Op.ADEsetModeBit ModeBit.CYCMODE false]) ++
  [Op.ADEsetRegister Reg.GAIN (gainValue c), Op.CSselectDevice k.DEVDISABLE]

/-- A bus on which the device reset (second call of `Cprogram`) reports a
communication error and no other call writes `_retCode`. -/
def hwResetFails : Nat → Reply := fun n =>
  if n = 1 then { rc := some RetCode.COMMERR, data := 0 }
  else { rc := none, data := 0 }

/-- A bus on which the write of PHCAL (fifth call) reports a communication error
and every other call reports success. -/
def hwPhcalFailsAlone : Nat → Reply := fun n =>
  if n = 4 then { rc := some RetCode.COMMERR, data := 0 }
  else { rc := some RetCode.SUCCESS, data := 0 }

/-- A bus on which every call succeeds and every read delivers 0. -/
def hwAllSucceed : Nat → Reply := fun _ =>
  { rc := some RetCode.SUCCESS, data := 0 }

/-! ## `CsetOn` and `CisOn` (lines 176-187) -/

/-- The metering bus together with the relays: `relay id` tells whether the relay
of channel `id` is closed. -/
structure Board where
  world : World
  relay : Int → Bool

/-- Modelled from the spec: `SWisOn` comes from `Switches/switches.h`, which is
not among the sources; it returns the current relay state without side effects. -/
def SWisOn (id : Int) (b : Board) : Bool :=
  b.relay id

/-- Modelled from the spec: `SWset` comes from `Switches/switches.h`, which is
not among the sources; it puts the relay of the channel in the requested state. -/
def SWset (id : Int) (on_ : Bool) (b : Board) : Board :=
  { b with relay := fun i => if i = id then on_ else b.relay i }

/-- The function `CisOn`. -/
def CisOn (c : Circuit) (b : Board) : Bool :=
  SWisOn c.circuitID b

/-- The function `CsetOn`; the requested state `on` is taken as a truth value. -/
def CsetOn (c : Circuit) (on_ : Bool) (b : Board) : Board :=
  let b :=
    if CisOn c b ≠ on_ then
      { b with world := ADEwaitForInterrupt Irq.ZX0 10 b.world }
    else b
  SWset c.circuitID on_ b

/-- Number of zero-crossing waits in a log. -/
def zeroCrossingWaits (t : List Event) : Nat :=
  (t.filter fun e => decide (e.op = Op.ADEwaitForInterrupt Irq.ZX0 10)).length

/-- A board with every relay open and nothing logged. -/
def Board.start (hw : Nat → Reply) : Board where
  world := World.start hw
  relay := fun _ => false

/-! ## `Cload` and `Csave` (lines 192-203) -/

/-- The EEPROM: the byte held at each address. -/
structure Eeprom where
  byte : Nat → Nat

/-- The library routine `eeprom_update_block(src, dst, n)`: the `n` bytes of `src`
are stored from address `dst` on. -/
def eeprom_update_block (src : List Nat) (dst n : Nat) (e : Eeprom) : Eeprom where
  byte := fun a => if dst ≤ a ∧ a < dst + n then src.getD (a - dst) 0 else e.byte a

/-- The library routine `eeprom_read_block(dst, src, n)`: the first `n` bytes of
the object `dst` are replaced by the bytes stored from address `src` on. -/
def eeprom_read_block (dst : List Nat) (src n : Nat) (e : Eeprom) : List Nat :=
  (List.range n).map (fun i => e.byte (src + i)) ++ dst.drop n

/-- The function `Csave`, on the object representation of the record: the
`sizeofCircuit` bytes that `c` points to. -/
def Csave (sizeofCircuit : Nat) (c : List Nat) (addrEEPROM : Nat) (e : Eeprom) : Eeprom :=
  eeprom_update_block c addrEEPROM sizeofCircuit e

/-- The function `Cload`, giving the bytes of the record `c` after the call. -/
def Cload (sizeofCircuit : Nat) (c : List Nat) (addrEEPROM : Nat) (e : Eeprom) : List Nat :=
  eeprom_read_block c addrEEPROM sizeofCircuit e

/-- An EEPROM holding 255 everywhere, as after erasure. -/
def erasedEeprom : Eeprom where
  byte := fun _ => 255

/-! ## The load-all and save-all loops of `telduino.cpp` -/

/-- The loop
`for (Circuit *c = ckts; c != &ckts[NCIRCUITS]+1; c++) { f(c,addrEEPROM); addrEEPROM += sizeof(Circuit); }`
of `setup` (line 130) and of the console commands E and e (lines 269, 277), with
`c` held as an index into `ckts`. It returns the calls of `f` made, each as the
index of the record and the EEPROM address passed; `none` when the fuel runs out
before the loop ends. -/
def eepromLoop (NCIRCUITS sizeofCircuit : Nat) : Nat → Nat → Nat → Option (List (Nat × Nat))
  | 0, _, _ => none
  | fuel + 1, c, addrEEPROM =>
    if c ≠ NCIRCUITS + 1 then
      (eepromLoop NCIRCUITS sizeofCircuit fuel (c + 1) (addrEEPROM + sizeofCircuit)).map
        fun calls => (c, addrEEPROM) :: calls
    else
      some []

/-- The loop started as in the source: `c = ckts`, `addrEEPROM = 0`. -/
def eepromLoopCalls (NCIRCUITS sizeofCircuit fuel : Nat) : Option (List (Nat × Nat)) :=
  eepromLoop NCIRCUITS sizeofCircuit fuel 0 0

/-! ## `readData` (`ADE7753.c`, lines 6-34) -/

/-- The SPI bus: the bytes sent so far, and the byte that the slave clocks in
during each transfer, by number of the transfer. -/
structure Spi where
  sent : List Nat
  miso : Nat → Nat

/-- One `SPI.transfer(b)`: the byte received comes first. -/
def Spi.transfer (s : Spi) (b : Nat) : Nat × Spi :=
  (s.miso s.sent.length % 256, { s with sent := s.sent ++ [b % 256] })

/-- State of `readData`: the buffer `data`, the indices at which it was stored
to, and the bus. -/
structure ReadState where
  data : List Nat
  stores : List Nat
  spi : Spi

/-- The store `data[ii] = v`. -/
def ReadState.store (st : ReadState) (ii v : Nat) : ReadState :=
  { st with data := st.data.set ii v, stores := st.stores ++ [ii] }

/-- The loop `for (ii=0; ii<3; ii++) data[ii] = 0x00;`, from `ii` on for `count`
rounds. -/
def clearLoop : Nat → Nat → ReadState → ReadState
  | 0, _, st => st
  | count + 1, ii, st => clearLoop count (ii + 1) (st.store ii 0)

/-- The loop `for (ii=0; ii<numBytes; ii++) data[ii] = SPI.transfer(0x00);`, from
`ii` on for `count` rounds. -/
def readLoop : Nat → Nat → ReadState → ReadState
  | 0, _, st => st
  | count + 1, ii, st =>
    let (v, spi) := st.spi.transfer 0
    readLoop count (ii + 1) ({ st with spi := spi }.store ii v)

/-- The test `regAddr & 0b11000000` on an `int8_t` address. -/
def highBits (regAddr : Int) : Nat :=
  (regAddr % 256).toNat &&& 0b11000000

/-- The function `readData`; the source writes the buffer as `uint8_t[ii]`, read
here as `data[ii]`. The value returned comes first. -/
def readData (numBits regAddr : Int) (data : List Nat) (spi : Spi) : Bool × ReadState :=
  let numBytes := Int.tdiv (numBits + 7) 8
  if highBits regAddr ≠ 0 then
    (false, { data := data, stores := [], spi := spi })
  else
    let (_, spi) := spi.transfer (regAddr % 256).toNat
    let st : ReadState := { data := data, stores := [], spi := spi }
    let st := clearLoop 3 0 st
    let st := readLoop numBytes.toNat 0 st
    (true, st)

/-- A slave that answers the transfer number `n` with the byte `n + 16`. -/
def sampleSpi : Spi where
  sent := []
  miso := fun n => n + 16

/-! ## `readSheevaPort` (`telduino.cpp`, lines 1054-1090) -/

/-- The constant `MAXLEN_PLUG_MESSAGE` of line 51, the size of the buffer `s`. -/
def MAXLEN_PLUG_MESSAGE : Nat := 127

/-- The variables of `readSheevaPort` while it reads: the index `i`, the two flags,
and the stores made into the buffer `s`, each as the index and the byte stored. -/
structure SheevaState where
  i : Nat
  valid_message_streaming : Bool
  valid_message_received : Bool
  stores : List (Nat × Nat)
  deriving DecidableEq, Repr

/-- The loop `while (sheevaPort.available() && i < MAXLEN_PLUG_MESSAGE)` of lines
1068-1087, run on the bytes waiting on the port. The byte read is an
`unsigned char`, so the test `!= -1` of line 1069 always holds; the branch for
byte 26 only prints. Bytes: 40 is `(`, 41 is `)`, 32 a blank, 9 a tab, 10 a line
feed. -/
def sheevaLoop : List Nat → SheevaState → SheevaState
  | [], st => st
  | c :: rest, st =>
    if st.i < MAXLEN_PLUG_MESSAGE then
      if st.valid_message_streaming then
        if c = 41 then
          sheevaLoop rest { st with valid_message_received := true }
        else if c ≠ 32 ∧ c ≠ 9 then
          let st := { st with stores := st.stores ++ [(st.i, c)], i := st.i + 1 }
          if c = 10 then st else sheevaLoop rest st
        else
          sheevaLoop rest st
      else if c = 40 then
        sheevaLoop rest { st with valid_message_streaming := true }
      else
        sheevaLoop rest st
    else
      st

/-- The stores that `readSheevaPort` makes into `s`, up to and with the store
`s[i] = 0` of line 1088, for the bytes waiting on the port. -/
def readSheevaPortStores (port : List Nat) : List (Nat × Nat) :=
  if port ≠ [] then
    let st := sheevaLoop port
      { i := 0, valid_message_streaming := false, valid_message_received := false,
        stores := [] }
    st.stores ++ [(st.i, 0)]
  else
    []

/-- The bytes of a text. -/
def bytesOf (text : String) : List Nat :=
  text.toList.map Char.toNat

/-- A message of 127 letters `a` after the opening parenthesis. -/
def longMessage : List Nat :=
  40 :: List.replicate 127 97

/-! ## `get_val` and the job buffer of `meter_test` (`telduino.cpp`, lines 1121-1155) -/

/-- The library routine `strstr(s, key)`: the rest of `s` from the first place
where `key` stands, if there is one. -/
def strstr (key : List Nat) : List Nat → Option (List Nat)
  | [] => if key.isPrefixOf [] then some [] else none
  | c :: rest => if key.isPrefixOf (c :: rest) then some (c :: rest) else strstr key rest

/-- The library routine `strchr(s, ch)` for a byte `ch` other than 0: the rest of
`s` from the first `ch` on, if there is one. -/
def strchr (ch : Nat) : List Nat → Option (List Nat)
  | [] => none
  | c :: rest => if c = ch then some (c :: rest) else strchr ch rest

/-- The loop of lines 1135-1139: bytes are copied to `val[i++]` until the end of
the text, `&`, a line feed or a carriage return. It returns the final `i` and the
stores made, each as the index and the byte stored. -/
def copyLoop : List Nat → Nat → List (Nat × Nat) → Nat × List (Nat × Nat)
  | [], i, stores => (i, stores)
  | c :: rest, i, stores =>
    if c ≠ 0 ∧ c ≠ 38 ∧ c ≠ 10 ∧ c ≠ 13 then
      copyLoop rest (i + 1) (stores ++ [(i, c)])
    else
      (i, stores)

/-- The function `get_val`: the stores it makes into `val`, the last one being the
terminating 0 of line 1140. Byte 61 is `=`. -/
def get_val (s key : List Nat) : List (Nat × Nat) :=
  match strstr key s with
  | none => []
  | some substr =>
    match strchr 61 substr with
    | none => []
    | some eq =>
      let p := eq.drop 1
      let (i, stores) := copyLoop p 0 []
      stores ++ [(i, 0)]

/-- The size of `char job[8]` in `meter_test` (line 1149). -/
def jobBufferSize : Nat := 8

/-- The stores that `meter_test` lets `get_val` make into `job` (line 1153). -/
def meterTestJobStores (s : List Nat) : List (Nat × Nat) :=
  get_val s (bytesOf "job")

/-! ## Lemmas on the integer arithmetic -/

theorem toU64_natCast (n : Nat) (h : n < 2 ^ 64) : toU64 (n : Int) = n := by
  unfold toU64
  omega

theorem toU64_ne_zero (x : Int) (h : fits32 x) (h0 : x ≠ 0) : toU64 x ≠ 0 := by
  unfold toU64
  unfold fits32 at h
  omega

theorem pfNumerator_natCast (W : Nat) (h : W < 2 ^ 32) :
    pfNumerator (W : Int) = W * 65534 := by
  unfold pfNumerator
  rw [toU64_natCast W (by omega)]
  simp only []
  omega

theorem pfStep_natCast (W VA : Nat) (hW : W < 2 ^ 32) (hVA : VA < 2 ^ 32) (h0 : VA ≠ 0) :
    pfStep (W : Int) (VA : Int) =
      { PF := (W * 65534 / VA) % 2 ^ 16, divisors := [VA] } := by
  unfold pfStep
  have : (VA : Int) ≠ 0 := by exact_mod_cast h0
  rw [if_pos this, pfNumerator_natCast W hW, toU64_natCast VA (by omega)]
  rfl

theorem waitProduct_eq (regData halfCyclesSample : Int)
    (hr0 : 0 ≤ regData) (hr : regData < 2 ^ 16) (hh0 : 0 ≤ halfCyclesSample) :
    waitProduct regData halfCyclesSample = regData * 22 * (halfCyclesSample / 100) / 100 := by
  unfold waitProduct
  have hw : wrapI32 (regData * 22) = regData * 22 := by
    unfold wrapI32
    omega
  have hk : Int.tdiv halfCyclesSample 100 = halfCyclesSample / 100 :=
    Int.tdiv_eq_ediv hh0 (by decide)
  have hk0 : 0 ≤ halfCyclesSample / 100 := by omega
  rw [hw, hk]
  exact Int.tdiv_eq_ediv (Int.mul_nonneg (by omega) hk0) (by decide)

/-! ## Lemmas on the control flow -/

theorem ERRCHECKRETURN_pass (k : Consts) (c : Circuit) (w : World)
    (rest : Circuit → World → Circuit × World)
    (h : w.retCode = RetCode.SUCCESS ∨ w.retCode = RetCode.TIMEOUT) :
    ERRCHECKRETURN k c w rest = rest c w := by
  rcases h with h | h <;> simp [ERRCHECKRETURN, _shouldReturn, nsuccess, h]

theorem reply_of_codeAfter (w : World) (n : Nat)
    (h : ∀ i, i < n → w.codeAfter i = RetCode.SUCCESS) (i : Nat) (hi : i < n) :
    (w.hw (w.trace.length + i)).rc.getD RetCode.SUCCESS = RetCode.SUCCESS := by
  cases i with
  | zero => simpa [World.codeAfter] using h 0 hi
  | succ j =>
    have hj := h (j + 1) hi
    rw [World.codeAfter, h j (by omega)] at hj
    exact hj

/-- When the twelve calls up to the last register read all succeed, `Cmeasure`
stores the two energies read and the power factor computed from them. -/
theorem Cmeasure_all_succeed (k : Consts) (fl : FloatOps) (c : Circuit) (w : World)
    (h : ∀ i, i < 12 → w.codeAfter i = RetCode.SUCCESS) :
    (Cmeasure k fl c w).1.WEnergy = fl.energy (w.hw (w.trace.length + 9)).data c.Wslope ∧
    (Cmeasure k fl c w).1.VAEnergy = fl.energy (w.hw (w.trace.length + 8)).data c.VAEslope ∧
    (Cmeasure k fl c w).1.PF =
      (pfStep (Cmeasure k fl c w).1.WEnergy (Cmeasure k fl c w).1.VAEnergy).PF := by
  have g := reply_of_codeAfter w 12 h
  have h0 := g 0 (by decide)
  have h1 := g 1 (by decide)
  have h2 := g 2 (by decide)
  have h3 := g 3 (by decide)
  have h4 := g 4 (by decide)
  have h5 := g 5 (by decide)
  have h6 := g 6 (by decide)
  have h7 := g 7 (by decide)
  have h8 := g 8 (by decide)
  have h9 := g 9 (by decide)
  have h10 := g 10 (by decide)
  have h11 := g 11 (by decide)
  simp only [Nat.add_zero] at h0
  simp [Cmeasure, CmeasureReads, CmeasureEnd, RCreset, CSselectDevice, ADEgetRegister,
    ADEwaitForInterrupt, World.call, ERRCHECKRETURN, _shouldReturn, nsuccess, Nat.add_assoc,
    h0, h1, h2, h3, h4, h5, h6, h7, h8, h9, h10, h11]

/-- On a cycle-end timeout after successful select and reads, `Cmeasure` changes
the circuit in two fields only: `status` and `periodus`. -/
theorem Cmeasure_timeout_circuit (k : Consts) (fl : FloatOps) (c : Circuit) (w : World)
    (h0 : w.codeAfter 0 = RetCode.SUCCESS)
    (h1 : w.codeAfter 1 = RetCode.SUCCESS)
    (h2 : w.codeAfter 2 = RetCode.SUCCESS)
    (h3 : w.codeAfter 3 = RetCode.TIMEOUT) :
    (Cmeasure k fl c w).1 =
      { c with
        status := recordStatus k c.status (w.hw (w.trace.length + 1)).data
        periodus := Int.tdiv (wrapI32 ((w.hw (w.trace.length + 2)).data * 22)) 10 } := by
  simp only [World.codeAfter] at h0 h1 h2 h3
  unfold Cmeasure
  simp only [RCreset, CSselectDevice, ADEgetRegister, ADEwaitForInterrupt, World.call]
  rw [ERRCHECKRETURN_pass _ _ _ _ (Or.inl h0)]
  simp only [List.length_append, List.length_singleton]
  rw [ERRCHECKRETURN_pass _ _ _ _ (Or.inl h1)]
  simp only [List.length_append, List.length_singleton]
  rw [ERRCHECKRETURN_pass _ _ _ _ (Or.inl h2)]
  simp only [List.length_append, List.length_singleton]
  rw [ERRCHECKRETURN_pass _ _ _ _ (Or.inr h3)]
  simp [h3, CmeasureEnd]

/-! ## Power factor -/

/-- C1: for non-negative energies below 2^32 with `VAEnergy` nonzero, the
shift-and-subtract quotient of line 125 is `WEnergy * 65534 / VAEnergy`, the value
stored in `PF` is that quotient modulo 2^16, and 1000 over 2000 gives 32767. -/
theorem pf_scaling_65534 (W VA : Nat) (hW : W < 2 ^ 32) (hVA : VA < 2 ^ 32) (h0 : VA ≠ 0) :
    pfNumerator (W : Int) / toU64 (VA : Int) = W * 65534 / VA ∧
    (pfStep (W : Int) (VA : Int)).PF = (W * 65534 / VA) % 2 ^ 16 ∧
    (pfStep 1000 2000).PF = 32767 := by
  refine ⟨?_, ?_, by decide⟩
  · rw [pfNumerator_natCast W hW, toU64_natCast VA (by omega)]
  · rw [pfStep_natCast W VA hW hVA h0]

theorem pf_scaling_65534_witness :
    (1000 : Nat) < 2 ^ 32 ∧ (2000 : Nat) < 2 ^ 32 ∧ (2000 : Nat) ≠ 0 ∧
    (pfNumerator ((1000 : Nat) : Int) / toU64 ((2000 : Nat) : Int) = 1000 * 65534 / 2000 ∧
      (pfStep ((1000 : Nat) : Int) ((2000 : Nat) : Int)).PF = (1000 * 65534 / 2000) % 2 ^ 16 ∧
      (pfStep 1000 2000).PF = 32767) :=
  ⟨by decide, by decide, by decide,
    pf_scaling_65534 1000 2000 (by decide) (by decide) (by decide)⟩

/-- C2, as stated, fails: on a measure cycle whose reads all succeed and which
reads an active energy of 0 and an apparent energy of 37, `PF` is the computed
ratio 0, not the sentinel 65535. -/
theorem pf_choice_by_active_energy_counterexample :
    (∀ i, i < 12 → (World.start hwIdleLoad).codeAfter i = RetCode.SUCCESS) ∧
    (Cmeasure sampleConsts exactFloat defaultCircuit (World.start hwIdleLoad)).1.WEnergy = 0 ∧
    (Cmeasure sampleConsts exactFloat defaultCircuit (World.start hwIdleLoad)).1.VAEnergy = 37 ∧
    (Cmeasure sampleConsts exactFloat defaultCircuit (World.start hwIdleLoad)).1.PF = 0 ∧
    (Cmeasure sampleConsts exactFloat defaultCircuit (World.start hwIdleLoad)).1.PF ≠ 65535 := by
  have hs : ∀ i, i < 12 → (World.start hwIdleLoad).codeAfter i = RetCode.SUCCESS := by decide
  obtain ⟨hW, hVA, hPF⟩ :=
    Cmeasure_all_succeed sampleConsts exactFloat defaultCircuit (World.start hwIdleLoad) hs
  have eW : (Cmeasure sampleConsts exactFloat defaultCircuit
      (World.start hwIdleLoad)).1.WEnergy = 0 := by
    rw [hW]
    simp [World.start, hwIdleLoad, exactFloat]
  have eVA : (Cmeasure sampleConsts exactFloat defaultCircuit
      (World.start hwIdleLoad)).1.VAEnergy = 37 := by
    rw [hVA]
    simp [World.start, hwIdleLoad, exactFloat, defaultCircuit]
    norm_num [Int.floor_eq_iff]
  have ePF : (Cmeasure sampleConsts exactFloat defaultCircuit
      (World.start hwIdleLoad)).1.PF = 0 := by
    rw [hPF, eW, eVA]
    decide
  exact ⟨hs, eW, eVA, ePF, by rw [ePF]; decide⟩

/-- C2, amended: after a measure cycle whose reads all succeed, the choice is
decided by the apparent energy since the last read. `PF` is the truncated quotient
of line 125 when `VAEnergy` is nonzero (which is `WEnergy * 65534 / VAEnergy`
modulo 2^16 for non-negative energies below 2^32) and the sentinel 65535 when
`VAEnergy` is zero; the two energies are the ones just read. -/
theorem pf_choice_by_apparent_energy (k : Consts) (fl : FloatOps) (c : Circuit) (w : World)
    (h : ∀ i, i < 12 → w.codeAfter i = RetCode.SUCCESS) :
    (Cmeasure k fl c w).1.WEnergy = fl.energy (w.hw (w.trace.length + 9)).data c.Wslope ∧
    (Cmeasure k fl c w).1.VAEnergy = fl.energy (w.hw (w.trace.length + 8)).data c.VAEslope ∧
    ((Cmeasure k fl c w).1.VAEnergy = 0 → (Cmeasure k fl c w).1.PF = 65535) ∧
    ((Cmeasure k fl c w).1.VAEnergy ≠ 0 → (Cmeasure k fl c w).1.PF =
      toU16 (pfNumerator (Cmeasure k fl c w).1.WEnergy / toU64 (Cmeasure k fl c w).1.VAEnergy)) ∧
    (∀ W VA : Nat, (Cmeasure k fl c w).1.WEnergy = W → (Cmeasure k fl c w).1.VAEnergy = VA →
      W < 2 ^ 32 → VA < 2 ^ 32 → VA ≠ 0 →
      (Cmeasure k fl c w).1.PF = (W * 65534 / VA) % 2 ^ 16) := by
  obtain ⟨hW, hVA, hPF⟩ := Cmeasure_all_succeed k fl c w h
  refine ⟨hW, hVA, ?_, ?_, ?_⟩
  · intro hz
    rw [hPF, hz]
    simp [pfStep]
  · intro hnz
    rw [hPF]
    simp [pfStep, hnz]
  · intro W VA eW eVA bW bVA hnz
    rw [hPF, eW, eVA, pfStep_natCast W VA bW bVA hnz]

theorem pf_choice_by_apparent_energy_witness :
    (∀ i, i < 12 → (World.start hwIdleLoad).codeAfter i = RetCode.SUCCESS) ∧
    ((Cmeasure sampleConsts exactFloat defaultCircuit (World.start hwIdleLoad)).1.WEnergy =
        exactFloat.energy ((World.start hwIdleLoad).hw ((World.start hwIdleLoad).trace.length + 9)).data
          defaultCircuit.Wslope ∧
      (Cmeasure sampleConsts exactFloat defaultCircuit (World.start hwIdleLoad)).1.VAEnergy =
        exactFloat.energy ((World.start hwIdleLoad).hw ((World.start hwIdleLoad).trace.length + 8)).data
          defaultCircuit.VAEslope ∧
      ((Cmeasure sampleConsts exactFloat defaultCircuit (World.start hwIdleLoad)).1.VAEnergy = 0 →
        (Cmeasure sampleConsts exactFloat defaultCircuit (World.start hwIdleLoad)).1.PF = 65535) ∧
      ((Cmeasure sampleConsts exactFloat defaultCircuit (World.start hwIdleLoad)).1.VAEnergy ≠ 0 →
        (Cmeasure sampleConsts exactFloat defaultCircuit (World.start hwIdleLoad)).1.PF =
          toU16 (pfNumerator
              (Cmeasure sampleConsts exactFloat defaultCircuit (World.start hwIdleLoad)).1.WEnergy /
            toU64
              (Cmeasure sampleConsts exactFloat defaultCircuit (World.start hwIdleLoad)).1.VAEnergy)) ∧
      (∀ W VA : Nat,
        (Cmeasure sampleConsts exactFloat defaultCircuit (World.start hwIdleLoad)).1.WEnergy = W →
        (Cmeasure sampleConsts exactFloat defaultCircuit (World.start hwIdleLoad)).1.VAEnergy = VA →
        W < 2 ^ 32 → VA < 2 ^ 32 → VA ≠ 0 →
        (Cmeasure sampleConsts exactFloat defaultCircuit (World.start hwIdleLoad)).1.PF =
          (W * 65534 / VA) % 2 ^ 16)) :=
  ⟨by decide,
    pf_choice_by_apparent_energy sampleConsts exactFloat defaultCircuit (World.start hwIdleLoad)
      (by decide)⟩

/-- C3: whatever the active energy, an apparent energy of 0 makes the power-factor
step store 65535 without evaluating the division; for every apparent energy that a
field of at most 32 bits can hold, the division is never evaluated with divisor 0;
and energies 0 and 0 give 65535. -/
theorem pf_zero_apparent_energy (W VA : Int) (hVA : fits32 VA) :
    pfStep W 0 = { PF := 65535, divisors := [] } ∧
    0 ∉ (pfStep W VA).divisors ∧
    (pfStep 0 0).PF = 65535 := by
  refine ⟨by simp [pfStep], ?_, by decide⟩
  unfold pfStep
  by_cases h0 : VA = 0
  · simp [h0]
  · simp [h0]
    exact (toU64_ne_zero VA hVA h0).symm

theorem pf_zero_apparent_energy_witness :
    fits32 3 ∧
    (pfStep 7 0 = { PF := 65535, divisors := [] } ∧
      0 ∉ (pfStep 7 3).divisors ∧
      (pfStep 0 0).PF = 65535) :=
  ⟨by decide, pf_zero_apparent_energy 7 3 (by decide)⟩

/-- C4, as stated, fails: with `WEnergy = 65535` and the nonzero
`VAEnergy = 65534` the computing branch stores 65535, the sentinel. -/
theorem pf_ratio_equals_sentinel_counterexample :
    (65534 : Int) ≠ 0 ∧ fits32 65535 ∧ fits32 65534 ∧
    (pfStep 65535 65534).divisors = [65534] ∧ (pfStep 65535 65534).PF = 65535 := by
  decide

/-- C4, amended: for non-negative energies below 2^32 whose quotient
`WEnergy * 65534 / VAEnergy` stays below 65535, in particular whenever
`WEnergy ≤ VAEnergy` with `VAEnergy` nonzero, the computing branch stores a value
other than 65535. -/
theorem pf_ratio_below_sentinel (W VA : Nat) (hW : W < 2 ^ 32) (hVA : VA < 2 ^ 32)
    (h : W * 65534 < 65535 * VA) :
    (pfStep (W : Int) (VA : Int)).divisors = [VA] ∧
    (pfStep (W : Int) (VA : Int)).PF ≠ 65535 := by
  have h0 : VA ≠ 0 := by rintro rfl; omega
  rw [pfStep_natCast W VA hW hVA h0]
  have hq : W * 65534 / VA < 65535 := by
    apply Nat.div_lt_of_lt_mul
    omega
  refine ⟨rfl, ?_⟩
  show (W * 65534 / VA) % 2 ^ 16 ≠ 65535
  generalize W * 65534 / VA = q at hq
  omega

theorem pf_ratio_below_sentinel_witness :
    (2000 : Nat) < 2 ^ 32 ∧ (2000 : Nat) < 2 ^ 32 ∧ 2000 * 65534 < 65535 * 2000 ∧
    ((pfStep ((2000 : Nat) : Int) ((2000 : Nat) : Int)).divisors = [2000] ∧
      (pfStep ((2000 : Nat) : Int) ((2000 : Nat) : Int)).PF ≠ 65535) :=
  ⟨by decide, by decide, by decide,
    pf_ratio_below_sentinel 2000 2000 (by decide) (by decide) (by decide)⟩

/-! ## Timeout containment -/

/-- C5, as stated, fails: select and both reads succeed, the cycle-end wait times
out, and `periodus`, 1024 before the call, is 16665 after it. -/
theorem timeout_frame_counterexample :
    (World.start hwTimeout).codeAfter 0 = RetCode.SUCCESS ∧
    (World.start hwTimeout).codeAfter 1 = RetCode.SUCCESS ∧
    (World.start hwTimeout).codeAfter 2 = RetCode.SUCCESS ∧
    (World.start hwTimeout).codeAfter 3 = RetCode.TIMEOUT ∧
    defaultCircuit.periodus = 1024 ∧
    (Cmeasure sampleConsts exactFloat defaultCircuit (World.start hwTimeout)).1.periodus = 16665 ∧
    (Cmeasure sampleConsts exactFloat defaultCircuit (World.start hwTimeout)).1.periodus ≠
      defaultCircuit.periodus := by
  decide

/-- C5, amended: if select and the status and period reads succeed and the
cycle-end wait returns Timeout, then after `Cmeasure` the fields IRMS, VRMS, VA, W,
PF, VAEnergy, WEnergy, ipeak and vpeak have the values they had before the call,
while `periodus` holds the PERIOD count just read times 22 over 10; the only other
field written is `status`. -/
theorem timeout_frame_except_period (k : Consts) (fl : FloatOps) (c : Circuit) (w : World)
    (h0 : w.codeAfter 0 = RetCode.SUCCESS)
    (h1 : w.codeAfter 1 = RetCode.SUCCESS)
    (h2 : w.codeAfter 2 = RetCode.SUCCESS)
    (h3 : w.codeAfter 3 = RetCode.TIMEOUT) :
    (Cmeasure k fl c w).1.IRMS = c.IRMS ∧
    (Cmeasure k fl c w).1.VRMS = c.VRMS ∧
    (Cmeasure k fl c w).1.VA = c.VA ∧
    (Cmeasure k fl c w).1.W = c.W ∧
    (Cmeasure k fl c w).1.PF = c.PF ∧
    (Cmeasure k fl c w).1.VAEnergy = c.VAEnergy ∧
    (Cmeasure k fl c w).1.WEnergy = c.WEnergy ∧
    (Cmeasure k fl c w).1.ipeak = c.ipeak ∧
    (Cmeasure k fl c w).1.vpeak = c.vpeak ∧
    (Cmeasure k fl c w).1.periodus =
      Int.tdiv (wrapI32 ((w.hw (w.trace.length + 2)).data * 22)) 10 ∧
    (Cmeasure k fl c w).1 =
      { c with
        status := recordStatus k c.status (w.hw (w.trace.length + 1)).data
        periodus := Int.tdiv (wrapI32 ((w.hw (w.trace.length + 2)).data * 22)) 10 } := by
  have hc := Cmeasure_timeout_circuit k fl c w h0 h1 h2 h3
  rw [hc]
  exact ⟨rfl, rfl, rfl, rfl, rfl, rfl, rfl, rfl, rfl, rfl, rfl⟩

theorem timeout_frame_except_period_witness :
    (World.start hwTimeout).codeAfter 0 = RetCode.SUCCESS ∧
    (World.start hwTimeout).codeAfter 1 = RetCode.SUCCESS ∧
    (World.start hwTimeout).codeAfter 2 = RetCode.SUCCESS ∧
    (World.start hwTimeout).codeAfter 3 = RetCode.TIMEOUT ∧
    ((Cmeasure sampleConsts exactFloat defaultCircuit (World.start hwTimeout)).1.IRMS =
        defaultCircuit.IRMS ∧
      (Cmeasure sampleConsts exactFloat defaultCircuit (World.start hwTimeout)).1.VRMS =
        defaultCircuit.VRMS ∧
      (Cmeasure sampleConsts exactFloat defaultCircuit (World.start hwTimeout)).1.VA =
        defaultCircuit.VA ∧
      (Cmeasure sampleConsts exactFloat defaultCircuit (World.start hwTimeout)).1.W =
        defaultCircuit.W ∧
      (Cmeasure sampleConsts exactFloat defaultCircuit (World.start hwTimeout)).1.PF =
        defaultCircuit.PF ∧
      (Cmeasure sampleConsts exactFloat defaultCircuit (World.start hwTimeout)).1.VAEnergy =
        defaultCircuit.VAEnergy ∧
      (Cmeasure sampleConsts exactFloat defaultCircuit (World.start hwTimeout)).1.WEnergy =
        defaultCircuit.WEnergy ∧
      (Cmeasure sampleConsts exactFloat defaultCircuit (World.start hwTimeout)).1.ipeak =
        defaultCircuit.ipeak ∧
      (Cmeasure sampleConsts exactFloat defaultCircuit (World.start hwTimeout)).1.vpeak =
        defaultCircuit.vpeak ∧
      (Cmeasure sampleConsts exactFloat defaultCircuit (World.start hwTimeout)).1.periodus =
        Int.tdiv (wrapI32
          (((World.start hwTimeout).hw ((World.start hwTimeout).trace.length + 2)).data * 22)) 10 ∧
      (Cmeasure sampleConsts exactFloat defaultCircuit (World.start hwTimeout)).1 =
        { defaultCircuit with
          status := recordStatus sampleConsts defaultCircuit.status
            ((World.start hwTimeout).hw ((World.start hwTimeout).trace.length + 1)).data
          periodus := Int.tdiv (wrapI32
            (((World.start hwTimeout).hw ((World.start hwTimeout).trace.length + 2)).data * 22))
              10 }) :=
  ⟨by decide, by decide, by decide, by decide,
    timeout_frame_except_period sampleConsts exactFloat defaultCircuit (World.start hwTimeout)
      (by decide) (by decide) (by decide) (by decide)⟩

/-- C6: if the cycle-end wait of `Cmeasure` is reached (none of the three calls
before it makes `_shouldReturn` abort) and returns Timeout, then `_retCode` is
Timeout when `Cmeasure` returns, whatever the final deselect answers. -/
theorem timeout_result (k : Consts) (fl : FloatOps) (c : Circuit) (w : World)
    (h0 : w.codeAfter 0 = RetCode.SUCCESS ∨ w.codeAfter 0 = RetCode.TIMEOUT)
    (h1 : w.codeAfter 1 = RetCode.SUCCESS ∨ w.codeAfter 1 = RetCode.TIMEOUT)
    (h2 : w.codeAfter 2 = RetCode.SUCCESS ∨ w.codeAfter 2 = RetCode.TIMEOUT)
    (h3 : w.codeAfter 3 = RetCode.TIMEOUT) :
    (Cmeasure k fl c w).2.retCode = RetCode.TIMEOUT ∧
    (Cmeasure k fl c w).2.retCode ≠ RetCode.SUCCESS := by
  simp only [World.codeAfter] at h0 h1 h2 h3
  unfold Cmeasure
  simp only [RCreset, CSselectDevice, ADEgetRegister, ADEwaitForInterrupt, World.call]
  rw [ERRCHECKRETURN_pass _ _ _ _ h0]
  simp only [List.length_append, List.length_singleton]
  rw [ERRCHECKRETURN_pass _ _ _ _ h1]
  simp only [List.length_append, List.length_singleton]
  rw [ERRCHECKRETURN_pass _ _ _ _ h2]
  simp only [List.length_append, List.length_singleton]
  rw [ERRCHECKRETURN_pass _ _ _ _ (Or.inr h3)]
  simp [h3, CmeasureEnd]

theorem timeout_result_witness :
    ((World.start hwTimeout).codeAfter 0 = RetCode.SUCCESS ∨
      (World.start hwTimeout).codeAfter 0 = RetCode.TIMEOUT) ∧
    ((World.start hwTimeout).codeAfter 1 = RetCode.SUCCESS ∨
      (World.start hwTimeout).codeAfter 1 = RetCode.TIMEOUT) ∧
    ((World.start hwTimeout).codeAfter 2 = RetCode.SUCCESS ∨
      (World.start hwTimeout).codeAfter 2 = RetCode.TIMEOUT) ∧
    (World.start hwTimeout).codeAfter 3 = RetCode.TIMEOUT ∧
    ((Cmeasure sampleConsts exactFloat defaultCircuit (World.start hwTimeout)).2.retCode =
        RetCode.TIMEOUT ∧
      (Cmeasure sampleConsts exactFloat defaultCircuit (World.start hwTimeout)).2.retCode ≠
        RetCode.SUCCESS) :=
  ⟨by decide, by decide, by decide, by decide,
    timeout_result sampleConsts exactFloat defaultCircuit (World.start hwTimeout)
      (by decide) (by decide) (by decide) (by decide)⟩

/-! ## Wait bound -/

/-- C7: for every PERIOD count up to 11364 (a line at 40 Hz or faster) and every
`halfCyclesSample` up to 1400, the product fits 16 bits unchanged, adding its half
stays below 2^16, and the bound is at most 60000 ms; at count 11364 and 1400
half-cycles the bound is 52501 ms. -/
theorem wait_bound_worst_case (regData halfCyclesSample : Int)
    (hr0 : 0 ≤ regData) (hr : regData ≤ 11364)
    (hh0 : 0 ≤ halfCyclesSample) (hh : halfCyclesSample ≤ 1400) :
    (0 ≤ waitProduct regData halfCyclesSample ∧
      waitProduct regData halfCyclesSample < 2 ^ 16 ∧
      (waitBase regData halfCyclesSample : Int) = waitProduct regData halfCyclesSample ∧
      waitBase regData halfCyclesSample + waitBase regData halfCyclesSample / 2 < 2 ^ 16 ∧
      waitTime regData halfCyclesSample ≤ 60000) ∧
    waitTime 11364 1400 = 52501 := by
  refine ⟨?_, by decide⟩
  have hp := waitProduct_eq regData halfCyclesSample hr0 (by omega) hh0
  have hk0 : 0 ≤ halfCyclesSample / 100 := by omega
  have hk : halfCyclesSample / 100 ≤ 14 := by omega
  have hP0 : 0 ≤ regData * 22 * (halfCyclesSample / 100) :=
    Int.mul_nonneg (by omega) hk0
  have hP : regData * 22 * (halfCyclesSample / 100) ≤ 250008 * 14 :=
    Int.mul_le_mul (by omega) hk hk0 (by decide)
  generalize regData * 22 * (halfCyclesSample / 100) = P at hp hP0 hP
  have hq0 : 0 ≤ P / 100 := by omega
  have hq : P / 100 ≤ 35001 := by omega
  rw [← hp] at hq0 hq
  unfold waitTime waitBase toU16
  generalize waitProduct regData halfCyclesSample = q at hq0 hq
  have hb : intToU16 q = q.toNat := by
    unfold intToU16
    congr 1
    omega
  rw [hb]
  have hn : q.toNat ≤ 35001 := by omega
  have hs : q.toNat + q.toNat / 2 < 2 ^ 16 := by omega
  rw [Nat.mod_eq_of_lt hs]
  exact ⟨hq0, by omega, by omega, hs, by omega⟩

theorem wait_bound_worst_case_witness :
    (0 : Int) ≤ 11364 ∧ (11364 : Int) ≤ 11364 ∧ (0 : Int) ≤ 1400 ∧ (1400 : Int) ≤ 1400 ∧
    ((0 ≤ waitProduct 11364 1400 ∧
        waitProduct 11364 1400 < 2 ^ 16 ∧
        (waitBase 11364 1400 : Int) = waitProduct 11364 1400 ∧
        waitBase 11364 1400 + waitBase 11364 1400 / 2 < 2 ^ 16 ∧
        waitTime 11364 1400 ≤ 60000) ∧
      waitTime 11364 1400 = 52501) :=
  ⟨by decide, by decide, by decide, by decide,
    wait_bound_worst_case 11364 1400 (by decide) (by decide) (by decide) (by decide)⟩

/-- C8 on the code: with `halfCyclesSample = 1400`, the PERIOD count 14186 gives
the product 43692, which fits 16 bits, but adding its half passes 2^16 and leaves a
bound of 2 ms, below the 52501 ms that the smaller count 11364 gets. -/
theorem wait_bound_wraps_at_slow_line :
    (11364 : Int) ≤ 14186 ∧ (14186 : Int) ≤ 65535 ∧
    waitProduct 14186 1400 = 43692 ∧ waitBase 14186 1400 = 43692 ∧
    2 ^ 16 ≤ waitBase 14186 1400 + waitBase 14186 1400 / 2 ∧
    waitTime 11364 1400 = 52501 ∧ waitTime 14186 1400 = 2 ∧
    waitTime 14186 1400 < waitTime 11364 1400 := by
  decide

/-- C9 on the code: with `halfCyclesSample = 50` on a 60 Hz line (PERIOD count
7575) the integer division `halfCyclesSample/100` is 0 and the bound is 0 ms, while
one and a half times the duration of 50 half-cycles is above 624 ms; with 1400
half-cycles and PERIOD count 14186 the 16-bit sum wraps to 2 ms, against more than
32000 ms. -/
theorem wait_bound_below_sample_time :
    Int.tdiv 50 100 = 0 ∧ waitTime 7575 50 = 0 ∧
    20000 * ((waitTime 7575 50 : Int) + 1) < 3 * tenTimesSampleMicros 7575 50 ∧
    20000 * (624 : Int) < 3 * tenTimesSampleMicros 7575 50 ∧
    waitTime 14186 1400 = 2 ∧
    20000 * ((waitTime 14186 1400 : Int) + 1) < 3 * tenTimesSampleMicros 14186 1400 ∧
    20000 * (32000 : Int) < 3 * tenTimesSampleMicros 14186 1400 := by
  decide

/-! ## `Cprogram` on an invalid channel -/

theorem reply_of_codeAfter_fail (w : World) (n : Nat) (rc : RetCode)
    (h : ∀ i, i < n + 1 → w.codeAfter i = RetCode.SUCCESS)
    (hf : w.codeAfter (n + 1) = rc) :
    (w.hw (w.trace.length + (n + 1))).rc.getD RetCode.SUCCESS = rc := by
  rw [World.codeAfter, h n (by omega)] at hf
  exact hf

/-- A communication error at the read number `j` of the block of lines 92-121,
after everything before it succeeded: the fields fed by the earlier reads are
overwritten, the others and `PF` are not, and the call ends with the deselect. -/
theorem Cmeasure_read_abort (k : Consts) (fl : FloatOps) (c : Circuit) (w : World)
    (j : Nat) (hj : j < 8)
    (hs : ∀ i, i < 4 + j → w.codeAfter i = RetCode.SUCCESS)
    (hf : w.codeAfter (4 + j) = RetCode.COMMERR) :
    (Cmeasure k fl c w).1.PF = c.PF ∧
    (Cmeasure k fl c w).1.vpeak = c.vpeak ∧
    (Cmeasure k fl c w).1.VA =
      (if 0 < j then fl.power (w.hw (w.trace.length + 4)).data c.VAEslope c.halfCyclesSample
        (Int.tdiv (wrapI32 ((w.hw (w.trace.length + 2)).data * 22)) 10) else c.VA) ∧
    (Cmeasure k fl c w).1.W =
      (if 1 < j then fl.power (w.hw (w.trace.length + 5)).data c.Wslope c.halfCyclesSample
        (Int.tdiv (wrapI32 ((w.hw (w.trace.length + 2)).data * 22)) 10) else c.W) ∧
    (Cmeasure k fl c w).1.IRMS =
      (if 2 < j then fl.scale (w.hw (w.trace.length + 6)).data c.IRMSslope else c.IRMS) ∧
    (Cmeasure k fl c w).1.VRMS =
      (if 3 < j then fl.scale (w.hw (w.trace.length + 7)).data c.VRMSslope else c.VRMS) ∧
    (Cmeasure k fl c w).1.VAEnergy =
      (if 4 < j then fl.energy (w.hw (w.trace.length + 8)).data c.VAEslope else c.VAEnergy) ∧
    (Cmeasure k fl c w).1.WEnergy =
      (if 5 < j then fl.energy (w.hw (w.trace.length + 9)).data c.Wslope else c.WEnergy) ∧
    (Cmeasure k fl c w).1.ipeak =
      (if 6 < j then fl.scale (w.hw (w.trace.length + 10)).data c.IRMSslope else c.ipeak) ∧
    (Cmeasure k fl c w).1.periodus =
      Int.tdiv (wrapI32 ((w.hw (w.trace.length + 2)).data * 22)) 10 ∧
    (Cmeasure k fl c w).2.trace.length = w.trace.length + (4 + j) + 2 := by
  have g := reply_of_codeAfter w (4 + j) hs
  have gf := reply_of_codeAfter_fail w (3 + j) RetCode.COMMERR
    (by intro i hi; exact hs i (by omega)) (by rw [show 3 + j + 1 = 4 + j by omega]; exact hf)
  have h0 := g 0 (by omega)
  simp only [Nat.add_zero] at h0
  have h1 := g 1 (by omega)
  have h2 := g 2 (by omega)
  have h3 := g 3 (by omega)
  interval_cases j
  all_goals
    simp [Cmeasure, CmeasureReads, CmeasureEnd, RCreset, CSselectDevice, ADEgetRegister,
      ADEwaitForInterrupt, World.call, ERRCHECKRETURN, _shouldReturn, nsuccess, Nat.add_assoc,
      h0, h1, h2, h3, g, gf] at *

/-- When the thirteen calls that `Cprogram` can make all succeed, it issues the
operations of `programSequence` and nothing else. -/
theorem Cprogram_all_succeed (k : Consts) (c : Circuit) (w : World)
    (h : ∀ i, i < 13 → w.codeAfter i = RetCode.SUCCESS) :
    opsOf (Cprogram k c w).2.trace = opsOf w.trace ++ programSequence k c ∧
    (Cprogram k c w).2.retCode = RetCode.SUCCESS ∧
    (Cprogram k c w).1 = c := by
  have g := reply_of_codeAfter w 13 h
  have h0 := g 0 (by decide)
  have h1 := g 1 (by decide)
  have h2 := g 2 (by decide)
  have h3 := g 3 (by decide)
  have h4 := g 4 (by decide)
  have h5 := g 5 (by decide)
  have h6 := g 6 (by decide)
  have h7 := g 7 (by decide)
  have h8 := g 8 (by decide)
  have h9 := g 9 (by decide)
  have h10 := g 10 (by decide)
  have h11 := g 11 (by decide)
  have h12 := g 12 (by decide)
  simp only [Nat.add_zero] at h0
  by_cases hsag : c.sagDurationCycles > 0 <;> by_cases hcyc : c.halfCyclesSample > 0 <;>
    simp [Cprogram, CprogramRest, programSequence, opsOf, CSselectDevice, ADEsetRegister,
      ADEsetModeBit, ADEsetCHXOS, ADEreset, World.call, ERRCHECKRETURN, _shouldReturn, nsuccess,
      Nat.add_assoc, hsag, hcyc, h0, h1, h2, h3, h4, h5, h6, h7, h8, h9, h10, h11, h12]

theorem gain_bits :
    ∀ v, v < 8 → ∀ s, s < 4 → ∀ i, i < 8 →
      ((v <<< 5) ||| (s <<< 3) ||| i) = v * 32 + s * 8 + i := by
  decide

/-! ## Lemmas on the EEPROM loops and on `readData` -/

theorem eepromLoop_spec (N S : Nat) :
    ∀ n c a fuel, c + n = N + 1 → n < fuel →
      eepromLoop N S fuel c a = some ((List.range n).map fun i => (c + i, a + i * S)) := by
  intro n
  induction n with
  | zero =>
    intro c a fuel hc hf
    cases fuel with
    | zero => omega
    | succ f => simp [eepromLoop, show c = N + 1 by omega]
  | succ n ih =>
    intro c a fuel hc hf
    cases fuel with
    | zero => omega
    | succ f =>
      have hne : c ≠ N + 1 := by omega
      rw [eepromLoop, if_pos hne, ih (c + 1) (a + S) f (by omega) (by omega)]
      simp only [Option.map_some', List.range_succ_eq_map, List.map_cons, List.map_map]
      congr 2
      · simp
      · apply List.map_congr_left
        intro i _
        simp only [Function.comp, Nat.succ_eq_add_one]
        refine Prod.ext (by simp; omega) ?_
        simp only [Nat.add_mul]
        omega

theorem highBits_eq_zero_iff (regAddr : Int) (h1 : -128 ≤ regAddr) (h2 : regAddr ≤ 127) :
    highBits regAddr = 0 ↔ (0 ≤ regAddr ∧ regAddr < 64) := by
  have key : ∀ n, n < 256 → (n &&& 0b11000000 = 0 ↔ n < 64) := by
    set_option maxRecDepth 100000 in decide
  unfold highBits
  have hn : (regAddr % 256).toNat < 256 := by omega
  rw [key _ hn]
  omega

theorem Csave_Cload (n : Nat) (c fresh : List Nat) (addr : Nat) (e : Eeprom)
    (hc : c.length = n) (hfresh : fresh.length = n) :
    Cload n fresh addr (Csave n c addr e) = c := by
  unfold Cload Csave eeprom_read_block eeprom_update_block
  rw [List.drop_of_length_le (by omega), List.append_nil]
  apply List.ext_getElem
  · simp [hc]
  · intro i h1 h2
    simp only [List.length_map, List.length_range] at h1
    simp [h1, List.getD_eq_getElem, h2]

theorem CisOn_CsetOn (c : Circuit) (on_ : Bool) (b : Board) :
    CisOn c (CsetOn c on_ b) = on_ := by
  simp [CsetOn, CisOn, SWisOn, SWset]

theorem CsetOn_of_isOn (c : Circuit) (on_ : Bool) (b : Board) (h : CisOn c b = on_) :
    (CsetOn c on_ b).world = b.world ∧ (CsetOn c on_ b).relay = b.relay := by
  unfold CsetOn
  simp only [h, ne_eq, not_true_eq_false, if_false, SWset]
  refine ⟨trivial, ?_⟩
  funext i
  by_cases hi : i = c.circuitID
  · simp only [hi, if_true]
    exact h.symm
  · simp only [hi, if_false]

/-! ## `Cprogram`: abort on failure, gain packing, order of operations -/

/-- C11 on the code: with the default circuit, when the write of PHCAL reports a
communication error, the channel-1 offset write `ADEsetCHXOS(1, ...)` is still
issued before the bus is deselected; when the device reset reports one, the
mode-bit write of DISSAG is still issued; and when the calls after the failing
PHCAL write report success, the whole sequence is issued and `_retCode` ends as
Success. -/
theorem program_failure_not_checked_at_once :
    (Cprogram sampleConsts defaultCircuit (World.start hwPhcalFails)).2.trace =
      [{ op := Op.CSselectDevice 0, rc := RetCode.SUCCESS },
       { op := Op.ADEreset, rc := RetCode.SUCCESS },
       { op := Op.ADEsetModeBit ModeBit.DISSAG false, rc := RetCode.SUCCESS },
       { op := Op.ADEsetRegister Reg.SAGCYC 11, rc := RetCode.SUCCESS },
       { op := Op.ADEsetRegister Reg.PHCAL 11, rc := RetCode.COMMERR },
       { op := Op.ADEsetCHXOS 1 0 0, rc := RetCode.COMMERR },
       { op := Op.CSselectDevice 21, rc := RetCode.COMMERR }] ∧
    (Cprogram sampleConsts defaultCircuit (World.start hwResetFails)).2.trace =
      [{ op := Op.CSselectDevice 0, rc := RetCode.SUCCESS },
       { op := Op.ADEreset, rc := RetCode.COMMERR },
       { op := Op.ADEsetModeBit ModeBit.DISSAG false, rc := RetCode.COMMERR },
       { op := Op.CSselectDevice 21, rc := RetCode.COMMERR }] ∧
    opsOf (Cprogram sampleConsts defaultCircuit (World.start hwPhcalFailsAlone)).2.trace =
      programSequence sampleConsts defaultCircuit ∧
    (Cprogram sampleConsts defaultCircuit (World.start hwPhcalFailsAlone)).2.retCode =
      RetCode.SUCCESS := by
  decide

/-- C12: for gain exponents below 8 and a voltage scale below 4, the value written
to GAIN is `chVgainExp*32 + chVscale*8 + chIgainExp`; its bits 7..5, 4..3 and 2..0
give back the three fields; and two circuits with the same GAIN value have the same
three fields. -/
theorem gain_packing (c : Circuit)
    (hv : c.chVgainExp < 8) (hs : c.chVscale < 4) (hi : c.chIgainExp < 8) :
    gainValue c = c.chVgainExp * 32 + c.chVscale * 8 + c.chIgainExp ∧
    gainValue c / 32 % 8 = c.chVgainExp ∧
    gainValue c / 8 % 4 = c.chVscale ∧
    gainValue c % 8 = c.chIgainExp ∧
    (∀ d : Circuit, d.chVgainExp < 8 → d.chVscale < 4 → d.chIgainExp < 8 →
      gainValue d = gainValue c →
      d.chVgainExp = c.chVgainExp ∧ d.chVscale = c.chVscale ∧ d.chIgainExp = c.chIgainExp) := by
  have hc : gainValue c = c.chVgainExp * 32 + c.chVscale * 8 + c.chIgainExp :=
    gain_bits _ hv _ hs _ hi
  refine ⟨hc, by omega, by omega, by omega, ?_⟩
  intro d dv ds di hd
  have hdv : gainValue d = d.chVgainExp * 32 + d.chVscale * 8 + d.chIgainExp :=
    gain_bits _ dv _ ds _ di
  omega

theorem gain_packing_witness :
    defaultCircuit.chVgainExp < 8 ∧ defaultCircuit.chVscale < 4 ∧
    defaultCircuit.chIgainExp < 8 ∧
    (gainValue defaultCircuit =
        defaultCircuit.chVgainExp * 32 + defaultCircuit.chVscale * 8 +
          defaultCircuit.chIgainExp ∧
      gainValue defaultCircuit / 32 % 8 = defaultCircuit.chVgainExp ∧
      gainValue defaultCircuit / 8 % 4 = defaultCircuit.chVscale ∧
      gainValue defaultCircuit % 8 = defaultCircuit.chIgainExp ∧
      (∀ d : Circuit, d.chVgainExp < 8 → d.chVscale < 4 → d.chIgainExp < 8 →
        gainValue d = gainValue defaultCircuit →
        d.chVgainExp = defaultCircuit.chVgainExp ∧ d.chVscale = defaultCircuit.chVscale ∧
          d.chIgainExp = defaultCircuit.chIgainExp)) :=
  ⟨by decide, by decide, by decide, gain_packing defaultCircuit (by decide) (by decide) (by decide)⟩

/-- C13: when every primitive succeeds, the device operations that `Cprogram`
issues are exactly, in order: select channel, reset, sag setup, PHCAL, channel-1
offset, IRMSOS, channel-2 offset, VRMSOS, cycle setup, GAIN, deselect; the circuit
is unchanged and `_retCode` is Success. -/
theorem program_sequence (k : Consts) (c : Circuit) (w : World)
    (h : ∀ i, i < 13 → w.codeAfter i = RetCode.SUCCESS) :
    opsOf (Cprogram k c w).2.trace = opsOf w.trace ++ programSequence k c ∧
    (Cprogram k c w).2.retCode = RetCode.SUCCESS ∧
    (Cprogram k c w).1 = c :=
  Cprogram_all_succeed k c w h

theorem program_sequence_witness :
    (∀ i, i < 13 → (World.start hwAllSucceed).codeAfter i = RetCode.SUCCESS) ∧
    (opsOf (Cprogram sampleConsts defaultCircuit (World.start hwAllSucceed)).2.trace =
        opsOf (World.start hwAllSucceed).trace ++ programSequence sampleConsts defaultCircuit ∧
      (Cprogram sampleConsts defaultCircuit (World.start hwAllSucceed)).2.retCode =
        RetCode.SUCCESS ∧
      (Cprogram sampleConsts defaultCircuit (World.start hwAllSucceed)).1 = defaultCircuit) :=
  ⟨by decide,
    program_sequence sampleConsts defaultCircuit (World.start hwAllSucceed) (by decide)⟩

/-! ## `CsetOn` -/

/-- C14: calling `CsetOn(c, on)` twice in a row, the second call issues no wait
and leaves the bus and every relay as the first call left them, so that the two
calls together hold at most one zero-crossing wait; the relay is in the requested
state after the first call; and a call requesting the state the relay is already in
issues no wait. -/
theorem setOn_idempotent (c : Circuit) (on_ : Bool) (b : Board) :
    (CsetOn c on_ (CsetOn c on_ b)).world.trace = (CsetOn c on_ b).world.trace ∧
    (CsetOn c on_ (CsetOn c on_ b)).world.retCode = (CsetOn c on_ b).world.retCode ∧
    (CsetOn c on_ (CsetOn c on_ b)).relay = (CsetOn c on_ b).relay ∧
    zeroCrossingWaits (CsetOn c on_ (CsetOn c on_ b)).world.trace ≤
      zeroCrossingWaits b.world.trace + 1 ∧
    CisOn c (CsetOn c on_ b) = on_ ∧
    (CsetOn c (CisOn c b) b).world.trace = b.world.trace := by
  have hon : CisOn c (CsetOn c on_ b) = on_ := CisOn_CsetOn c on_ b
  obtain ⟨h2, hr⟩ := CsetOn_of_isOn c on_ (CsetOn c on_ b) hon
  refine ⟨by rw [h2], by rw [h2], hr, ?_, hon, ?_⟩
  · rw [h2]
    by_cases hw : CisOn c b = on_
    · rw [(CsetOn_of_isOn c on_ b hw).1]
      omega
    · simp [CsetOn, SWset, hw, ADEwaitForInterrupt, World.call, zeroCrossingWaits,
        List.filter_append]
  · rw [(CsetOn_of_isOn c (CisOn c b) b rfl).1]

/-! ## `Csave` and `Cload` -/

/-- C15: for a record of `sizeofCircuit` bytes and every EEPROM address, `Csave`
followed by `Cload` at that address into another record of that size gives back the
bytes saved, all of them. -/
theorem save_load_round_trip (sizeofCircuit : Nat) (c fresh : List Nat) (addrEEPROM : Nat)
    (e : Eeprom) (hc : c.length = sizeofCircuit) (hfresh : fresh.length = sizeofCircuit) :
    Cload sizeofCircuit fresh addrEEPROM (Csave sizeofCircuit c addrEEPROM e) = c ∧
    (Cload sizeofCircuit fresh addrEEPROM (Csave sizeofCircuit c addrEEPROM e)).length =
      sizeofCircuit := by
  have h := Csave_Cload sizeofCircuit c fresh addrEEPROM e hc hfresh
  exact ⟨h, by rw [h, hc]⟩

theorem save_load_round_trip_witness :
    [1, 2, 3, 4].length = 4 ∧ [0, 0, 0, 0].length = 4 ∧
    (Cload 4 [0, 0, 0, 0] 8 (Csave 4 [1, 2, 3, 4] 8 erasedEeprom) = [1, 2, 3, 4] ∧
      (Cload 4 [0, 0, 0, 0] 8 (Csave 4 [1, 2, 3, 4] 8 erasedEeprom)).length = 4) :=
  ⟨by decide, by decide,
    save_load_round_trip 4 [1, 2, 3, 4] [0, 0, 0, 0] 8 erasedEeprom (by decide) (by decide)⟩

/-! ## The load-all and save-all loops -/

/-- C16 on the code: with `NCIRCUITS = 21` the loop ends (23 rounds of fuel are
enough) after 22 calls, one for each index 0..21 at address `index * sizeof(Circuit)`,
the last of them for index 21, which is outside the table. -/
theorem eeprom_loop_runs_past_table (sizeofCircuit : Nat) :
    eepromLoopCalls 21 sizeofCircuit 23 =
      some ((List.range 22).map fun i => (i, i * sizeofCircuit)) ∧
    (eepromLoopCalls 21 sizeofCircuit 23).map List.length = some 22 ∧
    (eepromLoopCalls 21 sizeofCircuit 23).map (fun calls => decide ((21, 21 * sizeofCircuit) ∈ calls)) =
      some true := by
  have h : eepromLoopCalls 21 sizeofCircuit 23 =
      some ((List.range 22).map fun i => (i, i * sizeofCircuit)) := by
    unfold eepromLoopCalls
    rw [eepromLoop_spec 21 sizeofCircuit 22 0 0 23 (by decide) (by decide)]
    simp
  refine ⟨h, ?_, ?_⟩
  · rw [h]
    simp
  · rw [h]
    simp only [Option.map_some', Option.some.injEq, decide_eq_true_eq, List.mem_map,
      List.mem_range]
    exact ⟨21, by decide, rfl⟩

/-! ## `readData` -/

/-- C17: for every `int8_t` address with bit 7 or bit 6 set (so in particular with
both set), `readData` returns false, makes no SPI transfer, stores nothing and
leaves the buffer as it was; for every address with both bits clear it returns
true. -/
theorem readData_rejects_high_bits (numBits regAddr : Int) (data : List Nat) (spi : Spi)
    (h1 : -128 ≤ regAddr) (h2 : regAddr ≤ 127) :
    ((regAddr < 0 ∨ 64 ≤ regAddr) →
      (readData numBits regAddr data spi).1 = false ∧
      (readData numBits regAddr data spi).2.spi.sent = spi.sent ∧
      (readData numBits regAddr data spi).2.stores = [] ∧
      (readData numBits regAddr data spi).2.data = data) ∧
    ((0 ≤ regAddr ∧ regAddr < 64) → (readData numBits regAddr data spi).1 = true) := by
  have hb := highBits_eq_zero_iff regAddr h1 h2
  constructor
  · intro hr
    have hne : highBits regAddr ≠ 0 := by
      intro h0
      have := hb.mp h0
      omega
    simp [readData, hne]
  · intro hr
    simp [readData, hb.mpr hr]

theorem readData_rejects_high_bits_witness :
    (-128 : Int) ≤ -3 ∧ (-3 : Int) ≤ 127 ∧
    ((((-3 : Int) < 0 ∨ (64 : Int) ≤ -3) →
        (readData 24 (-3) [9, 9, 9] sampleSpi).1 = false ∧
        (readData 24 (-3) [9, 9, 9] sampleSpi).2.spi.sent = sampleSpi.sent ∧
        (readData 24 (-3) [9, 9, 9] sampleSpi).2.stores = [] ∧
        (readData 24 (-3) [9, 9, 9] sampleSpi).2.data = [9, 9, 9]) ∧
      (((0 : Int) ≤ -3 ∧ (-3 : Int) < 64) → (readData 24 (-3) [9, 9, 9] sampleSpi).1 = true)) :=
  ⟨by decide, by decide, readData_rejects_high_bits 24 (-3) [9, 9, 9] sampleSpi (by decide) (by decide)⟩

/-- C18: for a register width of 1 to 24 bits and an address with both high bits
clear, `readData` sends the address, then one zero byte per data byte,
`(numBits+7)/8` of them; the byte received in the data transfer number `i` is at
`data[i]`, the rest of the three-byte buffer is 0; every store is at an index
below 3; and true is returned. -/
theorem readData_reads_msb_first (numBits regAddr : Int) (data : List Nat) (spi : Spi)
    (hn1 : 1 ≤ numBits) (hn2 : numBits ≤ 24) (hr1 : 0 ≤ regAddr) (hr2 : regAddr < 64)
    (hd : data.length = 3) :
    (readData numBits regAddr data spi).1 = true ∧
    (readData numBits regAddr data spi).2.spi.sent =
      spi.sent ++ [regAddr.toNat] ++ List.replicate ((numBits + 7) / 8).toNat 0 ∧
    (readData numBits regAddr data spi).2.data.length = 3 ∧
    (∀ i, i < 3 → (readData numBits regAddr data spi).2.data.getD i 0 =
      if i < ((numBits + 7) / 8).toNat then spi.miso (spi.sent.length + 1 + i) % 256 else 0) ∧
    (∀ i, i ∈ (readData numBits regAddr data spi).2.stores → i < 3) := by
  have hb : highBits regAddr = 0 :=
    (highBits_eq_zero_iff regAddr (by omega) (by omega)).mpr ⟨hr1, hr2⟩
  have ht : Int.tdiv (numBits + 7) 8 = (numBits + 7) / 8 :=
    Int.tdiv_eq_ediv (by omega) (by decide)
  have hm : (regAddr % 256).toNat % 256 = regAddr.toNat := by omega
  obtain ⟨a, b, c, rfl⟩ := List.length_eq_three.mp hd
  have hq : (numBits + 7) / 8 = 1 ∨ (numBits + 7) / 8 = 2 ∨ (numBits + 7) / 8 = 3 := by omega
  rcases hq with hq | hq | hq
  all_goals
    refine ⟨?_, ?_, ?_, ?_, ?_⟩
    · simp [readData, hb]
    · simp [readData, hb, ht, hq, hm, readLoop, clearLoop, ReadState.store, Spi.transfer,
        List.replicate]
    · simp [readData, hb, ht, hq, readLoop, clearLoop, ReadState.store, Spi.transfer]
    · intro i hi
      interval_cases i <;>
        simp [readData, hb, ht, hq, readLoop, clearLoop, ReadState.store, Spi.transfer,
          Nat.add_assoc]
    · intro i hi
      simp [readData, hb, ht, hq, readLoop, clearLoop, ReadState.store, Spi.transfer] at hi
      omega

theorem readData_reads_msb_first_witness :
    (1 : Int) ≤ 12 ∧ (12 : Int) ≤ 24 ∧ (0 : Int) ≤ 22 ∧ (22 : Int) < 64 ∧
    [9, 9, 9].length = 3 ∧
    ((readData 12 22 [9, 9, 9] sampleSpi).1 = true ∧
      (readData 12 22 [9, 9, 9] sampleSpi).2.spi.sent =
        sampleSpi.sent ++ [(22 : Int).toNat] ++ List.replicate (((12 : Int) + 7) / 8).toNat 0 ∧
      (readData 12 22 [9, 9, 9] sampleSpi).2.data.length = 3 ∧
      (∀ i, i < 3 → (readData 12 22 [9, 9, 9] sampleSpi).2.data.getD i 0 =
        if i < (((12 : Int) + 7) / 8).toNat then sampleSpi.miso (sampleSpi.sent.length + 1 + i) % 256
        else 0) ∧
      (∀ i, i ∈ (readData 12 22 [9, 9, 9] sampleSpi).2.stores → i < 3)) :=
  ⟨by decide, by decide, by decide, by decide, by decide,
    readData_reads_msb_first 12 22 [9, 9, 9] sampleSpi (by decide) (by decide) (by decide)
      (by decide) (by decide)⟩

/-! ## Select and deselect -/

/-- C20, as stated, fails: the cycle-end interrupt arrives, LVAENERGY reads 1000
and the read of LAENERGY reports a communication error; `VA`, 0 before the call, is
37503 after it (and `periodus` went from 1024 to 16665). -/
theorem measure_abort_counterexample :
    (∀ i, i < 5 → (World.start hwSecondReadFails).codeAfter i = RetCode.SUCCESS) ∧
    (World.start hwSecondReadFails).codeAfter 5 = RetCode.COMMERR ∧
    defaultCircuit.VA = 0 ∧
    (Cmeasure sampleConsts exactFloat defaultCircuit (World.start hwSecondReadFails)).1.VA =
      37503 ∧
    defaultCircuit.periodus = 1024 ∧
    (Cmeasure sampleConsts exactFloat defaultCircuit
      (World.start hwSecondReadFails)).1.periodus = 16665 := by
  have hs : ∀ i, i < 4 + 1 → (World.start hwSecondReadFails).codeAfter i = RetCode.SUCCESS := by
    decide
  have hf : (World.start hwSecondReadFails).codeAfter (4 + 1) = RetCode.COMMERR := by decide
  have h := Cmeasure_read_abort sampleConsts exactFloat defaultCircuit
    (World.start hwSecondReadFails) 1 (by decide) hs hf
  obtain ⟨-, -, hVA, -, -, -, -, -, -, hp, -⟩ := h
  refine ⟨hs, hf, rfl, ?_, rfl, ?_⟩
  · rw [hVA]
    simp [World.start, hwSecondReadFails, exactFloat, defaultCircuit, wrapI32]
    rw [show Int.tdiv 166650 10 = 16665 by decide]
    norm_num [Int.floor_eq_iff]
  · rw [hp]
    decide

/-- C20, amended: if, after the cycle-end signal arrived, the read number `j`
(0 to 7, in the order LVAENERGY, LAENERGY, IRMS, VRMS, RVAENERGY, RAENERGY,
RSTIPEAK, RSTVPEAK) fails with a communication error, `Cmeasure` issues no further
read (its log ends with that read and the deselect), and `PF`, `vpeak` and the
fields fed by the reads from number `j` on keep the values they had before the
call; the fields fed by the reads before number `j` hold the new values, and
`periodus` holds the period just read. -/
theorem measure_abort_partial (k : Consts) (fl : FloatOps) (c : Circuit) (w : World)
    (j : Nat) (hj : j < 8)
    (hs : ∀ i, i < 4 + j → w.codeAfter i = RetCode.SUCCESS)
    (hf : w.codeAfter (4 + j) = RetCode.COMMERR) :
    (Cmeasure k fl c w).1.PF = c.PF ∧
    (Cmeasure k fl c w).1.vpeak = c.vpeak ∧
    (Cmeasure k fl c w).1.VA =
      (if 0 < j then fl.power (w.hw (w.trace.length + 4)).data c.VAEslope c.halfCyclesSample
        (Int.tdiv (wrapI32 ((w.hw (w.trace.length + 2)).data * 22)) 10) else c.VA) ∧
    (Cmeasure k fl c w).1.W =
      (if 1 < j then fl.power (w.hw (w.trace.length + 5)).data c.Wslope c.halfCyclesSample
        (Int.tdiv (wrapI32 ((w.hw (w.trace.length + 2)).data * 22)) 10) else c.W) ∧
    (Cmeasure k fl c w).1.IRMS =
      (if 2 < j then fl.scale (w.hw (w.trace.length + 6)).data c.IRMSslope else c.IRMS) ∧
    (Cmeasure k fl c w).1.VRMS =
      (if 3 < j then fl.scale (w.hw (w.trace.length + 7)).data c.VRMSslope else c.VRMS) ∧
    (Cmeasure k fl c w).1.VAEnergy =
      (if 4 < j then fl.energy (w.hw (w.trace.length + 8)).data c.VAEslope else c.VAEnergy) ∧
    (Cmeasure k fl c w).1.WEnergy =
      (if 5 < j then fl.energy (w.hw (w.trace.length + 9)).data c.Wslope else c.WEnergy) ∧
    (Cmeasure k fl c w).1.ipeak =
      (if 6 < j then fl.scale (w.hw (w.trace.length + 10)).data c.IRMSslope else c.ipeak) ∧
    (Cmeasure k fl c w).1.periodus =
      Int.tdiv (wrapI32 ((w.hw (w.trace.length + 2)).data * 22)) 10 ∧
    (Cmeasure k fl c w).2.trace.length = w.trace.length + (4 + j) + 2 :=
  Cmeasure_read_abort k fl c w j hj hs hf

theorem measure_abort_partial_witness :
    (1 : Nat) < 8 ∧
    (∀ i, i < 4 + 1 → (World.start hwSecondReadFails).codeAfter i = RetCode.SUCCESS) ∧
    (World.start hwSecondReadFails).codeAfter (4 + 1) = RetCode.COMMERR ∧
    ((Cmeasure sampleConsts exactFloat defaultCircuit (World.start hwSecondReadFails)).1.PF =
        defaultCircuit.PF ∧
      (Cmeasure sampleConsts exactFloat defaultCircuit (World.start hwSecondReadFails)).1.vpeak =
        defaultCircuit.vpeak ∧
      (Cmeasure sampleConsts exactFloat defaultCircuit (World.start hwSecondReadFails)).1.VA =
        (if 0 < 1 then exactFloat.power
          ((World.start hwSecondReadFails).hw ((World.start hwSecondReadFails).trace.length + 4)).data
          defaultCircuit.VAEslope defaultCircuit.halfCyclesSample
          (Int.tdiv (wrapI32 (((World.start hwSecondReadFails).hw
            ((World.start hwSecondReadFails).trace.length + 2)).data * 22)) 10)
        else defaultCircuit.VA) ∧
      (Cmeasure sampleConsts exactFloat defaultCircuit (World.start hwSecondReadFails)).1.W =
        (if 1 < 1 then exactFloat.power
          ((World.start hwSecondReadFails).hw ((World.start hwSecondReadFails).trace.length + 5)).data
          defaultCircuit.Wslope defaultCircuit.halfCyclesSample
          (Int.tdiv (wrapI32 (((World.start hwSecondReadFails).hw
            ((World.start hwSecondReadFails).trace.length + 2)).data * 22)) 10)
        else defaultCircuit.W) ∧
      (Cmeasure sampleConsts exactFloat defaultCircuit (World.start hwSecondReadFails)).1.IRMS =
        (if 2 < 1 then exactFloat.scale
          ((World.start hwSecondReadFails).hw ((World.start hwSecondReadFails).trace.length + 6)).data
          defaultCircuit.IRMSslope
        else defaultCircuit.IRMS) ∧
      (Cmeasure sampleConsts exactFloat defaultCircuit (World.start hwSecondReadFails)).1.VRMS =
        (if 3 < 1 then exactFloat.scale
          ((World.start hwSecondReadFails).hw ((World.start hwSecondReadFails).trace.length + 7)).data
          defaultCircuit.VRMSslope
        else defaultCircuit.VRMS) ∧
      (Cmeasure sampleConsts exactFloat defaultCircuit
          (World.start hwSecondReadFails)).1.VAEnergy =
        (if 4 < 1 then exactFloat.energy
          ((World.start hwSecondReadFails).hw ((World.start hwSecondReadFails).trace.length + 8)).data
          defaultCircuit.VAEslope
        else defaultCircuit.VAEnergy) ∧
      (Cmeasure sampleConsts exactFloat defaultCircuit
          (World.start hwSecondReadFails)).1.WEnergy =
        (if 5 < 1 then exactFloat.energy
          ((World.start hwSecondReadFails).hw ((World.start hwSecondReadFails).trace.length + 9)).data
          defaultCircuit.Wslope
        else defaultCircuit.WEnergy) ∧
      (Cmeasure sampleConsts exactFloat defaultCircuit (World.start hwSecondReadFails)).1.ipeak =
        (if 6 < 1 then exactFloat.scale
          ((World.start hwSecondReadFails).hw
            ((World.start hwSecondReadFails).trace.length + 10)).data
          defaultCircuit.IRMSslope
        else defaultCircuit.ipeak) ∧
      (Cmeasure sampleConsts exactFloat defaultCircuit
          (World.start hwSecondReadFails)).1.periodus =
        Int.tdiv (wrapI32 (((World.start hwSecondReadFails).hw
          ((World.start hwSecondReadFails).trace.length + 2)).data * 22)) 10 ∧
      (Cmeasure sampleConsts exactFloat defaultCircuit
          (World.start hwSecondReadFails)).2.trace.length =
        (World.start hwSecondReadFails).trace.length + (4 + 1) + 2) :=
  ⟨by decide, by decide, by decide,
    measure_abort_partial sampleConsts exactFloat defaultCircuit (World.start hwSecondReadFails) 1
      (by decide) (by decide) (by decide)⟩

/-! ## Lemmas on the status word -/

theorem statusMask_testBit (i : Nat) :
    (0xFFFF0000 : Nat).testBit i = (decide (16 ≤ i) && decide (i < 32)) := by
  by_cases h : i < 32
  · have key : ∀ j, j < 32 → (0xFFFF0000 : Nat).testBit j = decide (16 ≤ j) := by decide
    rw [key i h]
    simp [h]
  · have hlt : (0xFFFF0000 : Nat) < 2 ^ i :=
      Nat.lt_of_lt_of_le (by decide : (0xFFFF0000 : Nat) < 2 ^ 32)
        (Nat.pow_le_pow_right (by decide) (by omega))
    rw [Nat.testBit_lt_two_pow hlt]
    simp [h]

theorem intToU16_lt (x : Int) : intToU16 x < 2 ^ 16 := by
  unfold intToU16
  omega

theorem testBit_of_lt_two_pow_16 (x i : Nat) (hx : x < 2 ^ 16) (hi : 16 ≤ i) :
    x.testBit i = false :=
  Nat.testBit_lt_two_pow (Nat.lt_of_lt_of_le hx (Nat.pow_le_pow_right (by decide) hi))

theorem testBit_low_of_mod_eq_zero (x i : Nat) (hx : x % 2 ^ 16 = 0) (hi : i < 16) :
    x.testBit i = false := by
  have h := Nat.testBit_mod_two_pow x 16 i
  rw [hx] at h
  simp [hi] at h
  exact h

theorem recordStatus_testBit (k : Consts) (status : Nat) (regData : Int) (i : Nat) :
    (recordStatus k status regData).testBit i =
      (((status.testBit i ^^ (status.testBit i && k.COMM.testBit i)) &&
          (decide (16 ≤ i) && decide (i < 32))) ||
        (intToU16 regData).testBit i) := by
  unfold recordStatus
  simp only [Nat.testBit_or, Nat.testBit_and, Nat.testBit_xor, statusMask_testBit]

theorem recordStatus_low (k : Consts) (status : Nat) (regData : Int) :
    recordStatus k status regData % 2 ^ 16 = intToU16 regData := by
  apply Nat.eq_of_testBit_eq
  intro i
  rw [Nat.testBit_mod_two_pow, recordStatus_testBit]
  by_cases hi : i < 16
  · have h16 : ¬ 16 ≤ i := by omega
    simp [hi, h16]
  · rw [testBit_of_lt_two_pow_16 _ i (intToU16_lt regData) (by omega)]
    simp [hi]

theorem recordStatus_comm (k : Consts) (status : Nat) (regData : Int)
    (hk : k.COMM % 2 ^ 16 = 0) :
    recordStatus k status regData &&& k.COMM = 0 := by
  apply Nat.eq_of_testBit_eq
  intro i
  rw [Nat.testBit_and, recordStatus_testBit, Nat.zero_testBit]
  by_cases hi : i < 16
  · rw [testBit_low_of_mod_eq_zero k.COMM i hk hi]
    simp
  · rw [testBit_of_lt_two_pow_16 _ i (intToU16_lt regData) (by omega)]
    cases status.testBit i <;> cases k.COMM.testBit i <;> simp

theorem recordStatus_high (k : Consts) (status : Nat) (regData : Int) (i : Nat)
    (h16 : 16 ≤ i) (h32 : i < 32) (hc : k.COMM.testBit i = false) :
    (recordStatus k status regData).testBit i = status.testBit i := by
  rw [recordStatus_testBit, testBit_of_lt_two_pow_16 _ i (intToU16_lt regData) h16, hc]
  simp [h16, h32]

theorem or_comm_low (k : Consts) (status : Nat) (hk : k.COMM % 2 ^ 16 = 0) :
    (status ||| k.COMM) % 2 ^ 16 = status % 2 ^ 16 := by
  apply Nat.eq_of_testBit_eq
  intro i
  rw [Nat.testBit_mod_two_pow, Nat.testBit_mod_two_pow, Nat.testBit_or]
  by_cases hi : i < 16
  · rw [testBit_low_of_mod_eq_zero k.COMM i hk hi]
    simp
  · simp [hi]

theorem or_comm_flag (k : Consts) (status : Nat) :
    (status ||| k.COMM) &&& k.COMM = k.COMM := by
  apply Nat.eq_of_testBit_eq
  intro i
  rw [Nat.testBit_and, Nat.testBit_or]
  cases status.testBit i <;> cases k.COMM.testBit i <;> rfl

/-- The circuit that `Cclear` leaves: after a successful select and read, with the
status recorded, and with COMM set on top if the deselect of line 51 leaves a
communication error; after a successful select and a read that leaves a
communication error, with COMM set and nothing else changed. -/
theorem Cclear_circuit (k : Consts) (c : Circuit) (w : World)
    (h0 : w.codeAfter 0 = RetCode.SUCCESS) :
    (w.codeAfter 1 = RetCode.SUCCESS → w.codeAfter 2 ≠ RetCode.COMMERR →
      (Cclear k c w).1 =
        { c with status := recordStatus k c.status (w.hw (w.trace.length + 1)).data }) ∧
    (w.codeAfter 1 = RetCode.SUCCESS → w.codeAfter 2 = RetCode.COMMERR →
      (Cclear k c w).1 =
        { c with status :=
            recordStatus k c.status (w.hw (w.trace.length + 1)).data ||| k.COMM }) ∧
    (w.codeAfter 1 = RetCode.COMMERR →
      (Cclear k c w).1 = { c with status := c.status ||| k.COMM }) := by
  simp only [World.codeAfter, Nat.zero_add, Nat.reduceAdd] at h0 ⊢
  refine ⟨?_, ?_, ?_⟩
  · intro h1 h2
    rw [h0] at h1
    rw [h0, h1] at h2
    generalize hrc : (w.hw (w.trace.length + 2)).rc.getD RetCode.SUCCESS = rc at h2
    cases rc <;>
      simp_all [Cclear, RCreset, CSselectDevice, ADEgetRegister, World.call, ERRCHECKRETURN,
        _shouldReturn, nsuccess, Nat.add_assoc]
  · intro h1 h2
    rw [h0] at h1
    rw [h0, h1] at h2
    simp [Cclear, RCreset, CSselectDevice, ADEgetRegister, World.call, ERRCHECKRETURN,
      _shouldReturn, nsuccess, Nat.add_assoc, h0, h1, h2]
  · intro h1
    rw [h0] at h1
    simp [Cclear, RCreset, CSselectDevice, ADEgetRegister, World.call, ERRCHECKRETURN,
      _shouldReturn, nsuccess, Nat.add_assoc, h0, h1]

/-! ## `Cclear`: recording the status -/

/-- C21, as stated, fails: select and read succeed with register value 0, the
deselect of line 51 reports a communication error, and the COMM flag is set in the
status that `Cclear` leaves. -/
theorem clear_status_counterexample :
    (World.start hwDeselectFails).codeAfter 0 = RetCode.SUCCESS ∧
    (World.start hwDeselectFails).codeAfter 1 = RetCode.SUCCESS ∧
    sampleConsts.COMM % 2 ^ 16 = 0 ∧
    (Cclear sampleConsts defaultCircuit (World.start hwDeselectFails)).1.status &&&
      sampleConsts.COMM = sampleConsts.COMM ∧
    (Cclear sampleConsts defaultCircuit (World.start hwDeselectFails)).1.status &&&
      sampleConsts.COMM ≠ 0 := by
  decide

/-- C21, amended: let COMM lie outside the low 16 bits. When the select and the
read-and-clear of the status register succeed with register value `r` and the
deselect that follows does not leave a communication error, the status afterwards
has its low 16 bits equal to those of `r`, COMM cleared, and each other bit among
bits 16 to 31 as before. When the read leaves a communication error, COMM is set
and the low 16 bits are as before. In both cases no other field of the circuit
changes. -/
theorem clear_records_status (k : Consts) (c : Circuit) (w : World)
    (hk : k.COMM % 2 ^ 16 = 0) (h0 : w.codeAfter 0 = RetCode.SUCCESS) :
    (w.codeAfter 1 = RetCode.SUCCESS → w.codeAfter 2 ≠ RetCode.COMMERR →
      (Cclear k c w).1.status % 2 ^ 16 = intToU16 (w.hw (w.trace.length + 1)).data ∧
      (Cclear k c w).1.status &&& k.COMM = 0 ∧
      (∀ i, 16 ≤ i → i < 32 → k.COMM.testBit i = false →
        (Cclear k c w).1.status.testBit i = c.status.testBit i) ∧
      (Cclear k c w).1 = { c with status := (Cclear k c w).1.status }) ∧
    (w.codeAfter 1 = RetCode.COMMERR →
      (Cclear k c w).1.status &&& k.COMM = k.COMM ∧
      (Cclear k c w).1.status % 2 ^ 16 = c.status % 2 ^ 16 ∧
      (Cclear k c w).1 = { c with status := (Cclear k c w).1.status }) := by
  obtain ⟨hs, -, hf⟩ := Cclear_circuit k c w h0
  constructor
  · intro h1 h2
    rw [hs h1 h2]
    exact ⟨recordStatus_low k _ _, recordStatus_comm k _ _ hk,
      fun i h16 h32 hc => recordStatus_high k _ _ i h16 h32 hc, rfl⟩
  · intro h1
    rw [hf h1]
    exact ⟨or_comm_flag k _, or_comm_low k _ hk, rfl⟩

theorem clear_records_status_witness :
    sampleConsts.COMM % 2 ^ 16 = 0 ∧
    (World.start hwAllSucceed).codeAfter 0 = RetCode.SUCCESS ∧
    (((World.start hwAllSucceed).codeAfter 1 = RetCode.SUCCESS →
        (World.start hwAllSucceed).codeAfter 2 ≠ RetCode.COMMERR →
        (Cclear sampleConsts defaultCircuit (World.start hwAllSucceed)).1.status % 2 ^ 16 =
          intToU16 ((World.start hwAllSucceed).hw
            ((World.start hwAllSucceed).trace.length + 1)).data ∧
        (Cclear sampleConsts defaultCircuit (World.start hwAllSucceed)).1.status &&&
          sampleConsts.COMM = 0 ∧
        (∀ i, 16 ≤ i → i < 32 → sampleConsts.COMM.testBit i = false →
          (Cclear sampleConsts defaultCircuit (World.start hwAllSucceed)).1.status.testBit i =
            defaultCircuit.status.testBit i) ∧
        (Cclear sampleConsts defaultCircuit (World.start hwAllSucceed)).1 =
          { defaultCircuit with
            status := (Cclear sampleConsts defaultCircuit
              (World.start hwAllSucceed)).1.status }) ∧
      ((World.start hwAllSucceed).codeAfter 1 = RetCode.COMMERR →
        (Cclear sampleConsts defaultCircuit (World.start hwAllSucceed)).1.status &&&
          sampleConsts.COMM = sampleConsts.COMM ∧
        (Cclear sampleConsts defaultCircuit (World.start hwAllSucceed)).1.status % 2 ^ 16 =
          defaultCircuit.status % 2 ^ 16 ∧
        (Cclear sampleConsts defaultCircuit (World.start hwAllSucceed)).1 =
          { defaultCircuit with
            status := (Cclear sampleConsts defaultCircuit
              (World.start hwAllSucceed)).1.status })) :=
  ⟨by decide, by decide,
    clear_records_status sampleConsts defaultCircuit (World.start hwAllSucceed)
      (by decide) (by decide)⟩

/-! ## `_shouldReturn`: the classification of result codes -/

/-- C22: with Success or Timeout in `_retCode`, `_shouldReturn` returns false and
leaves the circuit and the world (hence the bus) as they are; with a communication
error it sets COMM in the status, deselects the bus and returns true; with any
other code (ARGVALUEERR, CANCELED) it deselects the bus and returns true, the
circuit unchanged. The deselect is one logged operation. -/
theorem shouldReturn_classification (k : Consts) (c : Circuit) (w : World) :
    _shouldReturn k c { w with retCode := RetCode.SUCCESS } =
      (false, c, { w with retCode := RetCode.SUCCESS }) ∧
    _shouldReturn k c { w with retCode := RetCode.TIMEOUT } =
      (false, c, { w with retCode := RetCode.TIMEOUT }) ∧
    _shouldReturn k c { w with retCode := RetCode.COMMERR } =
      (true, { c with status := c.status ||| k.COMM },
        CSselectDevice k.DEVDISABLE { w with retCode := RetCode.COMMERR }) ∧
    _shouldReturn k c { w with retCode := RetCode.ARGVALUEERR } =
      (true, c, CSselectDevice k.DEVDISABLE { w with retCode := RetCode.ARGVALUEERR }) ∧
    _shouldReturn k c { w with retCode := RetCode.CANCELED } =
      (true, c, CSselectDevice k.DEVDISABLE { w with retCode := RetCode.CANCELED }) ∧
    opsOf (CSselectDevice k.DEVDISABLE w).trace =
      opsOf w.trace ++ [Op.CSselectDevice k.DEVDISABLE] := by
  refine ⟨?_, ?_, ?_, ?_, ?_, ?_⟩ <;>
    simp [_shouldReturn, nsuccess, CSselectDevice, World.call, opsOf]

/-! ## Power factor for physical inputs -/

/-- C23: for energies `0 ≤ WEnergy ≤ VAEnergy` with `0 < VAEnergy < 2^32`, the
quotient of line 125 is at most 65534, so `PF` is the quotient itself,
`WEnergy * 65534 / VAEnergy`; `PF` is 65534 exactly when the two energies are
equal; and a smaller active energy with the same apparent energy gives a `PF` that
is not larger. -/
theorem pf_in_range (W1 W2 VA : Nat) (h12 : W1 ≤ W2) (h2 : W2 ≤ VA) (h0 : 0 < VA)
    (hVA : VA < 2 ^ 32) :
    pfNumerator (W2 : Int) / toU64 (VA : Int) ≤ 65534 ∧
    (pfStep (W2 : Int) (VA : Int)).PF = pfNumerator (W2 : Int) / toU64 (VA : Int) ∧
    (pfStep (W2 : Int) (VA : Int)).PF = W2 * 65534 / VA ∧
    ((pfStep (W2 : Int) (VA : Int)).PF = 65534 ↔ W2 = VA) ∧
    (pfStep (W1 : Int) (VA : Int)).PF ≤ (pfStep (W2 : Int) (VA : Int)).PF := by
  have hne : VA ≠ 0 := by omega
  have hq : ∀ W, W ≤ VA → W * 65534 / VA ≤ 65534 := by
    intro W hW
    apply Nat.div_le_of_le_mul
    exact Nat.mul_le_mul_right 65534 hW
  have hpf : ∀ W, W ≤ VA → (pfStep (W : Int) (VA : Int)).PF = W * 65534 / VA := by
    intro W hW
    rw [pfStep_natCast W VA (by omega) hVA hne]
    show (W * 65534 / VA) % 2 ^ 16 = W * 65534 / VA
    have := hq W hW
    exact Nat.mod_eq_of_lt (by omega)
  have hnum : pfNumerator (W2 : Int) / toU64 (VA : Int) = W2 * 65534 / VA := by
    rw [pfNumerator_natCast W2 (by omega), toU64_natCast VA (by omega)]
  refine ⟨by rw [hnum]; exact hq W2 h2, by rw [hpf W2 h2, hnum], hpf W2 h2, ?_, ?_⟩
  · rw [hpf W2 h2]
    constructor
    · intro h
      have h1 : 65534 * VA ≤ W2 * 65534 := by
        have := Nat.div_mul_le_self (W2 * 65534) VA
        rw [h] at this
        exact this
      omega
    · intro h
      rw [h]
      exact Nat.mul_div_cancel_left 65534 h0
  · rw [hpf W1 (by omega), hpf W2 h2]
    exact Nat.div_le_div_right (Nat.mul_le_mul_right 65534 h12)

theorem pf_in_range_witness :
    (1000 : Nat) ≤ 2000 ∧ (2000 : Nat) ≤ 2000 ∧ (0 : Nat) < 2000 ∧ (2000 : Nat) < 2 ^ 32 ∧
    (pfNumerator ((2000 : Nat) : Int) / toU64 ((2000 : Nat) : Int) ≤ 65534 ∧
      (pfStep ((2000 : Nat) : Int) ((2000 : Nat) : Int)).PF =
        pfNumerator ((2000 : Nat) : Int) / toU64 ((2000 : Nat) : Int) ∧
      (pfStep ((2000 : Nat) : Int) ((2000 : Nat) : Int)).PF = 2000 * 65534 / 2000 ∧
      ((pfStep ((2000 : Nat) : Int) ((2000 : Nat) : Int)).PF = 65534 ↔ (2000 : Nat) = 2000) ∧
      (pfStep ((1000 : Nat) : Int) ((2000 : Nat) : Int)).PF ≤
        (pfStep ((2000 : Nat) : Int) ((2000 : Nat) : Int)).PF) :=
  ⟨by decide, by decide, by decide, by decide,
    pf_in_range 1000 2000 2000 (by decide) (by decide) (by decide) (by decide)⟩

/-! ## The message buffers of the host link -/

/-- C24 on the code: when an opening parenthesis and 127 letters wait on the
port, the loop stores the letters at the indices 0 to 126 and ends with `i = 127`,
and the store `s[i] = 0` of line 1088 is made at index 127, which is not below
`MAXLEN_PLUG_MESSAGE`. -/
theorem sheeva_terminator_past_buffer :
    (readSheevaPortStores longMessage).length = 128 ∧
    (readSheevaPortStores longMessage).map Prod.fst = List.range 128 ∧
    (readSheevaPortStores longMessage).getLast? = some (127, 0) ∧
    ¬ (127 < MAXLEN_PLUG_MESSAGE) := by
  set_option maxRecDepth 100000 in decide

/-- C25 on the code: for the command `cmp=mtr&job=modeDefault&cid=3`, `get_val`
stores the eleven letters of `modeDefault` at the indices 0 to 10 of `job` and the
terminating 0 at index 11, twelve bytes into a buffer of eight; for `readLVA` the
eight bytes stored fit. -/
theorem job_keyword_overflows_buffer :
    meterTestJobStores (bytesOf "cmp=mtr&job=modeDefault&cid=3") =
      (List.range 11).zip (bytesOf "modeDefault") ++ [(11, 0)] ∧
    (meterTestJobStores (bytesOf "cmp=mtr&job=modeDefault&cid=3")).length = 12 ∧
    jobBufferSize < (meterTestJobStores (bytesOf "cmp=mtr&job=modeDefault&cid=3")).length ∧
    meterTestJobStores (bytesOf "cmp=mtr&job=readLVA&cid=3") =
      (List.range 7).zip (bytesOf "readLVA") ++ [(7, 0)] ∧
    (meterTestJobStores (bytesOf "cmp=mtr&job=readLVA&cid=3")).length ≤ jobBufferSize := by
  decide

end Telduino
